import Mathlib

/-!
Verification of the NoSQL code-generation core of the NoSQL-Generate repository.

The JavaScript source is shallowly embedded: parsed JSON values (plus the
`Date` objects the serializers branch on) become the inductive type `JValue`;
the four backend generator modules (MongoDB in `src/unnamed/part_002`,
Firebase and DynamoDB in `src/unnamed/part_001`, CouchDB in
`src/js/nosql/couchdbGenerator.js`) become the namespaces `Mongo`,
`Firebase`, `Dynamo`, `Couch`; the dispatcher `generateNoSQL` of the
`nosqlGenerator.js` module (quoted in `src/README.md`) becomes the top-level
`generateNoSQL`.  JavaScript exceptions (`Object.entries` on
`undefined`/`null`) are modelled with `Except`, ambient randomness and the
clock (`generateId` from the absent `utils.js`, `new Date()`) with an
explicit environment record `JsEnv`.

String operations are re-implemented over `List Char` (`strEndsWith`,
`jsToLower`, `escapeDoubleQuotes`, `strContains`) so that every definition
evaluates inside the kernel; each mirrors the JavaScript method it stands
for on the ASCII inputs that occur here.
-/

set_option maxRecDepth 100000

/-- A JavaScript value as the generators see it: the JSON constructors plus
`date` for a `Date` instance (carrying its `toISOString()` rendering) and
`num` carrying the decimal rendering that `String(value)` would produce.
Object fields are kept in insertion order, as JavaScript does. -/
inductive JValue where
  | null
  | bool (b : Bool)
  | num (s : String)
  | str (s : String)
  | date (iso : String)
  | arr (elems : List JValue)
  | obj (fields : List (String × JValue))
deriving Repr

/-- `suffix.data.isSuffixOf`-based model of JavaScript `String.endsWith`. -/
def strEndsWith (s suffix : String) : Bool := suffix.data.isSuffixOf s.data

/-- Char-by-char model of JavaScript `String.toLowerCase` (ASCII inputs). -/
def jsToLower (s : String) : String := ⟨s.data.map Char.toLower⟩

/-- Model of JavaScript `value.replace(/"/g, '\\"')`: every double quote is
replaced by a backslash followed by a double quote. -/
def escapeDoubleQuotes (s : String) : String :=
  ⟨s.data.flatMap (fun c => if c = '"' then ['\\', '"'] else [c])⟩

/-- Naive substring search over char lists; `pat.isPrefixOf` at each position. -/
def listContainsSub (pat : List Char) : List Char → Bool
  | [] => pat.isEmpty
  | c :: cs => pat.isPrefixOf (c :: cs) || listContainsSub pat cs

/-- Model of JavaScript `s.includes(pat)`. -/
def strContains (s pat : String) : Bool := listContainsSub pat.data s.data

/-- Model of the regular expression test `/^\d{4}-\d{2}-\d{2}/.test(s)`:
four digits, a dash, two digits, a dash, two digits, at the start. -/
def matchesLeadingDate (s : String) : Bool :=
  match s.data with
  | y1 :: y2 :: y3 :: y4 :: d1 :: m1 :: m2 :: d2 :: a1 :: a2 :: _ =>
    y1.isDigit && y2.isDigit && y3.isDigit && y4.isDigit && d1 = '-' &&
    m1.isDigit && m2.isDigit && d2 = '-' && a1.isDigit && a2.isDigit
  | _ => false

/-- Model of `key.charAt(0).toUpperCase() + key.slice(1)` (ASCII inputs). -/
def jsCapitalize (s : String) : String :=
  match s.data with
  | [] => ""
  | c :: cs => ⟨Char.toUpper c :: cs⟩

/-- Model of `key.slice(0, -1)`: drop the final character. -/
def strDropLast (s : String) : String := ⟨s.data.dropLast⟩

/-- JavaScript truthiness of a `JValue` (`!jsonData` tests in the dispatcher):
`null`, `false`, `0`, `-0`, `NaN` and the empty string are falsy. -/
def jsTruthy : JValue → Bool
  | .null => false
  | .bool b => b
  | .num s => !(s = "0" || s = "-0" || s = "NaN")
  | .str s => !(s = "")
  | _ => true

/-- Whether `Array.isArray(v)` holds. -/
def isJsArray : JValue → Bool
  | .arr _ => true
  | _ => false

/-- The `Array.isArray(jsonData) ? jsonData : [jsonData]` idiom. -/
def toDataArray : JValue → List JValue
  | .arr l => l
  | v => [v]

/-- Index/value pairs `("0", x0), ("1", x1), …` starting at index `i`, as
`Object.entries` produces for an array. -/
def indexedFrom (i : Nat) : List JValue → List (String × JValue)
  | [] => []
  | v :: vs => (toString i, v) :: indexedFrom (i + 1) vs

/-- Index/character pairs as `Object.entries` produces for a (boxed) string. -/
def strCharEntries (i : Nat) : List Char → List (String × JValue)
  | [] => []
  | c :: cs => (toString i, .str ⟨[c]⟩) :: strCharEntries (i + 1) cs

/-- Total model of `Object.entries(v)`: an object's own fields, an array's
index/element pairs, a boxed string's index/character pairs, and `[]` for the
remaining primitives and for `Date` (a `Date` has no own enumerable
properties).  JavaScript throws on `null`; callers that can see `null` or
`undefined` go through `jsEntriesOpt` instead, and the remaining direct uses
(extraction, flattening) are guarded so that `null` never reaches them with
an observable difference. -/
def jsEntries : JValue → List (String × JValue)
  | .obj kvs => kvs
  | .arr l => indexedFrom 0 l
  | .str s => strCharEntries 0 s.data
  | _ => []

/-- `Object.entries` as the item loops use it: `none` models `undefined`
(an out-of-range index), and `undefined`/`null` raise the JavaScript
`TypeError`. -/
def jsEntriesOpt : Option JValue → Except String (List (String × JValue))
  | none => .error "TypeError: Cannot convert undefined or null to object"
  | some .null => .error "TypeError: Cannot convert undefined or null to object"
  | some v => .ok (jsEntries v)

/-- Model of `Object.keys(v)` (see `jsEntries` for the `null` caveat). -/
def jsKeys (v : JValue) : List String := (jsEntries v).map Prod.fst

/-- The recognized generation options (§`options` of every generator):
`dbName` is `none` when absent, mirroring the `options.dbName || fallback`
defaulting. -/
structure GenOptions where
  addIds : Bool := false
  addTimestamps : Bool := false
  addIndexes : Bool := false
  dbName : Option String := none
  sortKey : Option String := none

/-- The ambient collaborators: `generateId` (the utility module’s
`Math.random()`/clock-based ID generator — its source sits in
`src/js/notifications.js` line 318 — whose Boolean argument selects the short
alphanumeric form over the 24-hex ObjectId composite) and the clock
`new Date().toISOString()`.  Both are nondeterministic, so they are modelled
as an injected environment, as the spec prescribes for the ID/clock source. -/
structure JsEnv where
  generateId : Bool → String
  nowISO : String

/-- A fixed environment for concrete evaluations: a constant ID and instant. -/
def testEnv : JsEnv where
  generateId := fun _ => "aaaaaaaaaaaaaaaaaaaaaaaa"
  nowISO := "2024-06-01T12:00:00.000Z"

/-- `Except.ok`-aware substring test used to state facts about generator
output: `false` on `error`. -/
def okContains (e : Except String String) (pat : String) : Bool :=
  match e with
  | .ok s => strContains s pat
  | .error _ => false

/-- Sequential indexed rendering of a list of items, each possibly failing —
the `forEach` loops that build the output string. -/
def mapExceptIdxAux (f : Nat → α → Except ε String) : Nat → List α → Except ε String
  | _, [] => .ok ""
  | i, x :: rest => do
    let s ← f i x
    let r ← mapExceptIdxAux f (i + 1) rest
    pure (s ++ r)

/-- Indexed `forEach` string accumulation starting at index 0. -/
def mapExceptIdx (xs : List α) (f : Nat → α → Except ε String) : Except ε String :=
  mapExceptIdxAux f 0 xs

/-- Pure indexed `forEach` string accumulation. -/
def concatIdxAux (f : Nat → α → String) : Nat → List α → String
  | _, [] => ""
  | i, x :: rest => f i x ++ concatIdxAux f (i + 1) rest

/-- Pure indexed `forEach` string accumulation starting at index 0. -/
def concatIdx (xs : List α) (f : Nat → α → String) : String :=
  concatIdxAux f 0 xs

/-- The `Object.entries(item).forEach(([key, value], i) => … i < length - 1 ? ',' : '' …)`
field block: one `indent ++ key ++ ": " ++ serialized value` line per field,
a comma on every line but the last. -/
def fieldsBlockAux (ind : String) (ser : JValue → String) (total : Nat) :
    Nat → List (String × JValue) → String
  | _, [] => ""
  | i, (k, v) :: rest =>
    ind ++ k ++ ": " ++ ser v ++ (if i < total - 1 then "," else "") ++ "\n" ++
      fieldsBlockAux ind ser total (i + 1) rest

/-- Field block with last-field comma suppression (Mongo/Firebase/Couch style). -/
def fieldsBlock (ind : String) (ser : JValue → String) (es : List (String × JValue)) : String :=
  fieldsBlockAux ind ser es.length 0 es

/-- Field block with a trailing comma on every line (DynamoDB style). -/
def fieldsBlockComma (ind : String) (ser : JValue → String) : List (String × JValue) → String
  | [] => ""
  | (k, v) :: rest => ind ++ k ++ ": " ++ ser v ++ ",\n" ++ fieldsBlockComma ind ser rest

/-- The `typeof value === 'object' && value !== null && !Array.isArray(value)
&& Object.keys(value).length > 0` guard: exactly the non-empty objects
(a `Date` passes the `typeof` test but has no keys). -/
def isNonEmptyObjVal : JValue → Bool
  | .obj (_ :: _) => true
  | _ => false

/-- The `typeof x === 'object' && x !== null` test (objects, arrays, dates). -/
def isObjectTypeNonNull : JValue → Bool
  | .obj _ => true
  | .arr _ => true
  | .date _ => true
  | _ => false

/-- Collection-name → extracted-items map, in insertion order, as the
`collections` / `docTypes` / `entities` accumulator objects. -/
abbrev CollMap := List (String × List JValue)

/-- The `if (!collections[name]) collections[name] = []; collections[name].push(...vs)`
idiom on the insertion-ordered map. -/
def pushItems (m : CollMap) (name : String) (vs : List JValue) : CollMap :=
  if m.any (fun p => p.1 = name) then
    m.map (fun p => if p.1 = name then (p.1, p.2 ++ vs) else p)
  else m ++ [(name, vs)]

/-- JavaScript object field assignment `o[k] = v`: overwrite in place when the
key exists (keeping its position), append otherwise. -/
def jsObjSet (m : List (String × JValue)) (k : String) (v : JValue) : List (String × JValue) :=
  if m.any (fun p => p.1 = k) then m.map (fun p => if p.1 = k then (k, v) else p)
  else m ++ [(k, v)]

/-!
The reference-extraction walk, shared by the four backends.  Each source
module has its own copy (`extractReferencedCollections` twice,
`extractEntities`, `extractReferencedDocTypes`), identical except for how a
field key is turned into a collection name in the object branch (`objName`)
and in the array-of-objects branch (`arrName`); the walk is therefore
embedded once, parameterized by the two naming functions, and each namespace
instantiates it.  `Object.entries(item)` is split by constructor
(`extractItem`); for a boxed string the entries are single-character strings,
which satisfy neither guard, so that case is the same as having no entries.
-/

mutual
/-- `items.forEach(item => …)` of the extraction walk. -/
def extractItems (objName arrName : String → String) : List JValue → CollMap → CollMap
  | [], m => m
  | it :: its, m => extractItems objName arrName its (extractItem objName arrName it m)

/-- One item of the extraction walk: iterate its `Object.entries`. -/
def extractItem (objName arrName : String → String) : JValue → CollMap → CollMap
  | .obj kvs, m => extractEntries objName arrName kvs m
  | .arr l, m => extractArrEntries objName arrName 0 l m
  | _, m => m

/-- Entries of an array item (index keys), fed one by one to `extractValue`. -/
def extractArrEntries (objName arrName : String → String) :
    Nat → List JValue → CollMap → CollMap
  | _, [], m => m
  | i, v :: vs, m =>
    extractArrEntries objName arrName (i + 1) vs
      (extractValue objName arrName (toString i) v m)

/-- Entries of an object item, fed one by one to `extractValue`. -/
def extractEntries (objName arrName : String → String) :
    List (String × JValue) → CollMap → CollMap
  | [], m => m
  | (k, v) :: es, m =>
    extractEntries objName arrName es (extractValue objName arrName k v m)

/-- One `[key, value]` entry: a non-empty object is pushed under
`objName key`; an array whose first element is object-typed is spread-pushed
under `arrName key` and then recursed into. -/
def extractValue (objName arrName : String → String) (k : String) (v : JValue)
    (m : CollMap) : CollMap :=
  let m1 := if isNonEmptyObjVal v then pushItems m (objName k) [v] else m
  match v with
  | .arr (e :: rest) =>
    if isObjectTypeNonNull e then
      extractItems objName arrName (e :: rest) (pushItems m1 (arrName k) (e :: rest))
    else m1
  | _ => m1
end

/-!
The flatten walk, shared shape of the four `flattenObject` copies: object
fields recurse with a joined key, everything else is assigned as a leaf.
A `Date` value passes the object test but `Object.entries` of a `Date` is
empty, so the recursion contributes nothing and the field vanishes — this is
modelled by the explicit `.date` arm.  The accumulator threading models the
sequential `flattened[newKey] = value` / `Object.assign` writes.
-/

/-- The `prefix ? prefix + sep + key : key` joined key. -/
def joinKey (sep pre k : String) : String := if pre = "" then k else pre ++ sep ++ k

mutual
/-- `Object.entries(obj).forEach` of the flatten walk. -/
def flattenFields (sep : String) :
    List (String × JValue) → String → List (String × JValue) → List (String × JValue)
  | [], _, acc => acc
  | (k, v) :: rest, pre, acc => flattenFields sep rest pre (flattenOne sep k v pre acc)

/-- One field of the flatten walk. -/
def flattenOne (sep k : String) (v : JValue) (pre : String)
    (acc : List (String × JValue)) : List (String × JValue) :=
  match v with
  | .obj kvs => flattenFields sep kvs (joinKey sep pre k) acc
  | .date _ => acc
  | _ => jsObjSet acc (joinKey sep pre k) v
end

/-- The index-candidate scan shared verbatim by the four
`generateIndexSuggestions` implementations (part_002 lines 278–302, part_001
lines 1108–1132 and 1663–1687, couchdbGenerator.js lines 463–487): for each
entry of the sample item, push the key once per satisfied heuristic —
id-like name, date-like name/value, then name/email/username. -/
def indexCandidateScan (es : List (String × JValue)) : List String :=
  es.flatMap (fun kv =>
    (if strContains (jsToLower kv.1) "id" || strEndsWith (jsToLower kv.1) "_id"
     then [kv.1] else []) ++
    (if (match kv.2 with | .str s => matchesLeadingDate s | _ => false) ||
        (match kv.2 with | .date _ => true | _ => false) ||
        strContains (jsToLower kv.1) "date" || strContains (jsToLower kv.1) "time"
     then [kv.1] else []) ++
    (if strContains (jsToLower kv.1) "name" || strContains (jsToLower kv.1) "email" ||
        strContains (jsToLower kv.1) "username"
     then [kv.1] else []))

/-- The `if (Array.isArray(jsonData) && jsonData.length > 0)` sampling of all
four advisors: candidates come from the first element of an array input, and
any other input yields no candidates. -/
def indexCandidatesOf : JValue → List String
  | .arr (sample :: _) => indexCandidateScan (jsEntries sample)
  | _ => []

namespace Mongo

/-!
Embedding of the MongoDB generator module (`src/unnamed/part_002`).
-/

mutual
/-- `mongoValueToString` (part_002 lines 390–407). -/
def mongoValueToString : JValue → String
  | .null => "null"
  | .bool b => if b then "true" else "false"
  | .num s => s
  | .str s => "\"" ++ escapeDoubleQuotes s ++ "\""
  | .date iso => "ISODate(\"" ++ iso ++ "\")"
  | .arr elems => "[" ++ String.intercalate ", " (mongoValueList elems) ++ "]"
  | .obj fields => "\x7b " ++ String.intercalate ", " (mongoFieldList fields) ++ " \x7d"

/-- `value.map(item => mongoValueToString(item))`. -/
def mongoValueList : List JValue → List String
  | [] => []
  | v :: vs => mongoValueToString v :: mongoValueList vs

/-- `Object.entries(value).map(([k, v]) => k + ": " + mongoValueToString(v))`. -/
def mongoFieldList : List (String × JValue) → List String
  | [] => []
  | (k, v) :: kvs => (k ++ ": " ++ mongoValueToString v) :: mongoFieldList kvs
end

/-- `flattenObject` (part_002 lines 369–383), applied to an object's entries:
the joined key uses a dot. -/
def flattenObject (kvs : List (String × JValue)) (pre : String) : List (String × JValue) :=
  flattenFields "." kvs pre []

/-- The collection name of the object and array-of-objects branches of
`extractReferencedCollections` (part_002 lines 339 and 350):
`key.endsWith('s') ? key : key + 's'`. -/
def pluralCollName (key : String) : String :=
  if strEndsWith key "s" then key else key ++ "s"

/-- `extractReferencedCollections` (part_002 lines 334–361). -/
def extractReferencedCollections (items : List JValue) (collections : CollMap) : CollMap :=
  extractItems pluralCollName pluralCollName items collections

/-- `generateIndexSuggestions` (part_002 lines 269–327). -/
def generateIndexSuggestions (jsonData : JValue) (collectionName : String) : String :=
  let indexFields := indexCandidatesOf jsonData
  "// Index Suggestions\n" ++
  (if indexFields.length > 0 then
    String.join (indexFields.map (fun field =>
      "db." ++ collectionName ++ ".createIndex(\x7b " ++ field ++ ": 1 \x7d, \x7b name: \"" ++
        field ++ "_index\" \x7d);\n")) ++
    (if indexFields.length > 1 then
      "\n// Compound Index Suggestion\n" ++
      "db." ++ collectionName ++ ".createIndex(\x7b " ++
      concatIdx (indexFields.take 2)
        (fun index field => field ++ ": 1" ++ (if index < 1 then ", " else "")) ++
      " \x7d, \x7b name: \"compound_index\" \x7d);\n"
    else "")
  else "// No obvious index candidates found in this data structure\n")

/-- `generateNestedDocuments` (part_002 lines 69–104). -/
def generateNestedDocuments (env : JsEnv) (jsonData : JValue) (collectionName : String)
    (options : GenOptions) : Except String String := do
  let dataArray := toDataArray jsonData
  let body ← mapExceptIdx dataArray (fun index item => do
    let entries ← jsEntriesOpt (some item)
    pure ("  \x7b\n" ++
      (if options.addIds then "    _id: ObjectId(\"" ++ env.generateId false ++ "\"),\n" else "") ++
      (if options.addTimestamps then
        "    createdAt: ISODate(\"" ++ env.nowISO ++ "\"),\n" ++
        "    updatedAt: ISODate(\"" ++ env.nowISO ++ "\"),\n" else "") ++
      fieldsBlock "    " mongoValueToString entries ++
      "  \x7d" ++ (if index < dataArray.length - 1 then "," else "") ++ "\n"))
  pure ("// Nested document structure\n" ++
    "db." ++ collectionName ++ ".insertMany([\n" ++ body ++ "]);\n\n")

/-- `generateFlatDocuments` (part_002 lines 113–149). -/
def generateFlatDocuments (env : JsEnv) (jsonData : JValue) (collectionName : String)
    (options : GenOptions) : Except String String := do
  let dataArray := toDataArray jsonData
  let body ← mapExceptIdx dataArray (fun index item => do
    let entries ← jsEntriesOpt (some item)
    let flattenedObject := flattenObject entries ""
    pure ("  \x7b\n" ++
      (if options.addIds then "    _id: ObjectId(\"" ++ env.generateId false ++ "\"),\n" else "") ++
      (if options.addTimestamps then
        "    createdAt: ISODate(\"" ++ env.nowISO ++ "\"),\n" ++
        "    updatedAt: ISODate(\"" ++ env.nowISO ++ "\"),\n" else "") ++
      fieldsBlock "    " mongoValueToString flattenedObject ++
      "  \x7d" ++ (if index < dataArray.length - 1 then "," else "") ++ "\n"))
  pure ("// Flat document structure\n" ++
    "db." ++ collectionName ++ ".insertMany([\n" ++ body ++ "]);\n\n")

/-- The field loop of `generateReferencedDocuments` (part_002 lines 192–199):
a non-empty object field becomes `keyRef: ObjectId("…"),` (always with a
comma), anything else is serialized with a comma on all but the last entry. -/
def refFieldsAux (env : JsEnv) (total : Nat) : Nat → List (String × JValue) → String
  | _, [] => ""
  | i, (k, v) :: rest =>
    (if isNonEmptyObjVal v then
      "    " ++ k ++ "Ref: ObjectId(\"" ++ env.generateId false ++ "\"),\n"
    else
      "    " ++ k ++ ": " ++ mongoValueToString v ++ (if i < total - 1 then "," else "") ++ "\n") ++
    refFieldsAux env total (i + 1) rest

/-- `generateReferencedDocuments` (part_002 lines 158–208). -/
def generateReferencedDocuments (env : JsEnv) (jsonData : JValue) (collectionName : String)
    (options : GenOptions) : Except String String := do
  let dataArray := toDataArray jsonData
  let collections := extractReferencedCollections dataArray [(collectionName, dataArray)]
  let body ← mapExceptIdx collections (fun _ pair => do
    let items := pair.2
    let itemsStr ← mapExceptIdx items (fun index item => do
      let entries ← jsEntriesOpt (some item)
      pure ("  \x7b\n" ++
        (if options.addIds then "    _id: ObjectId(\"" ++ env.generateId false ++ "\"),\n" else "") ++
        (if options.addTimestamps then
          "    createdAt: ISODate(\"" ++ env.nowISO ++ "\"),\n" ++
          "    updatedAt: ISODate(\"" ++ env.nowISO ++ "\"),\n" else "") ++
        refFieldsAux env entries.length 0 entries ++
        "  \x7d" ++ (if index < items.length - 1 then "," else "") ++ "\n"))
    pure ("// Collection: " ++ pair.1 ++ "\n" ++
      "db." ++ pair.1 ++ ".insertMany([\n" ++ itemsStr ++ "]);\n\n"))
  pure ("// Referenced document structure\n" ++ body)

/-- `generateArrayBasedDocuments` (part_002 lines 217–261). -/
def generateArrayBasedDocuments (env : JsEnv) (jsonData : JValue) (collectionName : String)
    (options : GenOptions) : Except String String := do
  let dataArray := toDataArray jsonData
  let itemsStr ← mapExceptIdx dataArray (fun index item => do
    let entries ← jsEntriesOpt (some item)
    pure ("    \x7b\n" ++
      (if options.addIds then "      _id: ObjectId(\"" ++ env.generateId false ++ "\"),\n" else "") ++
      fieldsBlock "      " mongoValueToString entries ++
      "    \x7d" ++ (if index < dataArray.length - 1 then "," else "") ++ "\n"))
  pure ("// Array-based document structure\n" ++
    "db." ++ collectionName ++ ".insertOne(\x7b\n" ++
    (if options.addIds then "  _id: ObjectId(\"" ++ env.generateId false ++ "\"),\n" else "") ++
    (if options.addTimestamps then
      "  createdAt: ISODate(\"" ++ env.nowISO ++ "\"),\n" ++
      "  updatedAt: ISODate(\"" ++ env.nowISO ++ "\"),\n" else "") ++
    "  items: [\n" ++ itemsStr ++ "  ]\n" ++ "\x7d);\n\n")

/-- `generateMongoDBDocuments` (part_002 lines 19–59).  `structType` is the
`structure` argument (renamed: `structure` is a Lean keyword). -/
def generateMongoDBDocuments (env : JsEnv) (jsonData : JValue) (structType : String)
    (options : GenOptions) : Except String String := do
  let collectionName :=
    if isJsArray jsonData then "items"
    else if (jsKeys jsonData).length > 0 then (jsKeys jsonData).headD "collection"
    else "collection"
  let body ←
    match structType with
    | "nested" => generateNestedDocuments env jsonData collectionName options
    | "flat" => generateFlatDocuments env jsonData collectionName options
    | "references" => generateReferencedDocuments env jsonData collectionName options
    | "arrays" => generateArrayBasedDocuments env jsonData collectionName options
    | _ => generateNestedDocuments env jsonData collectionName options
  pure ("// MongoDB Shell Commands\n// Run these commands in MongoDB shell or MongoDB Compass\n\n" ++
    "use " ++ options.dbName.getD "nosql_generator_db" ++ ";\n\n" ++
    body ++
    (if options.addIndexes then generateIndexSuggestions jsonData collectionName else ""))

end Mongo

example :
    Mongo.generateMongoDBDocuments testEnv (.obj [("name", .str "Ada"), ("age", .num "36")])
      "nested" {} =
    .ok ("// MongoDB Shell Commands\n// Run these commands in MongoDB shell or MongoDB Compass\n\n" ++
      "use nosql_generator_db;\n\n" ++
      "// Nested document structure\n" ++
      "db.name.insertMany([\n  \x7b\n    name: \"Ada\",\n    age: 36\n  \x7d\n]);\n\n") := rfl

namespace Firebase

/-!
Embedding of the Firebase generator module (second module of
`src/unnamed/part_001`, lines 811–1244).
-/

mutual
/-- `firebaseValueToString` (part_001 lines 1225–1242). -/
def firebaseValueToString : JValue → String
  | .null => "null"
  | .bool b => if b then "true" else "false"
  | .num s => s
  | .str s => "\"" ++ escapeDoubleQuotes s ++ "\""
  | .date iso => "new Date(\"" ++ iso ++ "\")"
  | .arr elems => "[" ++ String.intercalate ", " (firebaseValueList elems) ++ "]"
  | .obj fields => "\x7b " ++ String.intercalate ", " (firebaseFieldList fields) ++ " \x7d"

/-- `value.map(item => firebaseValueToString(item))`. -/
def firebaseValueList : List JValue → List String
  | [] => []
  | v :: vs => firebaseValueToString v :: firebaseValueList vs

/-- `Object.entries(value).map(([k, v]) => k + ": " + firebaseValueToString(v))`. -/
def firebaseFieldList : List (String × JValue) → List String
  | [] => []
  | (k, v) :: kvs => (k ++ ": " ++ firebaseValueToString v) :: firebaseFieldList kvs
end

/-- `flattenObject` (part_001 lines 1204–1218): underscore join. -/
def flattenObject (kvs : List (String × JValue)) (pre : String) : List (String × JValue) :=
  flattenFields "_" kvs pre []

/-- Collection naming of `extractReferencedCollections` (part_001 lines 1174
and 1185): `key.endsWith('s') ? key : key + 's'` in both branches. -/
def pluralCollName (key : String) : String :=
  if strEndsWith key "s" then key else key ++ "s"

/-- `extractReferencedCollections` (part_001 lines 1169–1196). -/
def extractReferencedCollections (items : List JValue) (collections : CollMap) : CollMap :=
  extractItems pluralCollName pluralCollName items collections

/-- `generateIndexSuggestions` (part_001 lines 1097–1162). -/
def generateIndexSuggestions (jsonData : JValue) (collectionName : String) : String :=
  let indexFields := indexCandidatesOf jsonData
  "// Index Suggestions for Firebase\n" ++
  "// Add these indexes in the Firebase console or using the Firebase CLI\n\n" ++
  (if indexFields.length > 0 then
    "// Firebase indexes for collection: " ++ collectionName ++ "\n" ++
    "/*\n" ++
    String.join (indexFields.map (fun field => "  Field: " ++ field ++ ", Order: ASCENDING\n")) ++
    (if indexFields.length > 1 then
      "\n  // Compound index suggestion:\n" ++
      String.join ((indexFields.take 2).map
        (fun field => "  Field: " ++ field ++ ", Order: ASCENDING\n"))
    else "") ++
    "*/\n\n" ++
    "// Firebase CLI command example:\n" ++
    "// firebase firestore:indexes --project your-project-id\n\n"
  else "// No obvious index candidates found in this data structure\n\n")

/-- `generateNestedDocuments` (part_001 lines 869–909). -/
def generateNestedDocuments (env : JsEnv) (jsonData : JValue) (collectionName : String)
    (options : GenOptions) : Except String String := do
  let dataArray := toDataArray jsonData
  let body ← mapExceptIdx dataArray (fun index item => do
    let entries ← jsEntriesOpt (some item)
    pure ("  // Document " ++ toString (index + 1) ++ "\n" ++
      (if options.addIds then
        "  const docRef" ++ toString (index + 1) ++ " = doc(collectionRef, \"" ++
          env.generateId true ++ "\");\n" ++
        "  await setDoc(docRef" ++ toString (index + 1) ++ ", \x7b\n"
      else "  await addDoc(collectionRef, \x7b\n") ++
      (if options.addTimestamps then
        "    createdAt: serverTimestamp(),\n    updatedAt: serverTimestamp(),\n" else "") ++
      fieldsBlock "    " firebaseValueToString entries ++
      "  \x7d);\n\n"))
  pure ("// Nested document structure\n// Function to add documents to Firestore\n" ++
    "async function addNestedDocuments() \x7b\n" ++
    "  const collectionRef = collection(db, \"" ++ collectionName ++ "\");\n\n" ++
    body ++
    "  console.log(\"" ++ toString dataArray.length ++ " documents added to " ++
      collectionName ++ " collection\");\n\x7d\n\n")

/-- `generateFlatDocuments` (part_001 lines 918–961). -/
def generateFlatDocuments (env : JsEnv) (jsonData : JValue) (collectionName : String)
    (options : GenOptions) : Except String String := do
  let dataArray := toDataArray jsonData
  let body ← mapExceptIdx dataArray (fun index item => do
    let entries ← jsEntriesOpt (some item)
    let flattenedObject := flattenObject entries ""
    pure ("  // Document " ++ toString (index + 1) ++ "\n" ++
      (if options.addIds then
        "  const docRef" ++ toString (index + 1) ++ " = doc(collectionRef, \"" ++
          env.generateId true ++ "\");\n" ++
        "  await setDoc(docRef" ++ toString (index + 1) ++ ", \x7b\n"
      else "  await addDoc(collectionRef, \x7b\n") ++
      (if options.addTimestamps then
        "    createdAt: serverTimestamp(),\n    updatedAt: serverTimestamp(),\n" else "") ++
      fieldsBlock "    " firebaseValueToString flattenedObject ++
      "  \x7d);\n\n"))
  pure ("// Flat document structure\n// Function to add flat documents to Firestore\n" ++
    "async function addFlatDocuments() \x7b\n" ++
    "  const collectionRef = collection(db, \"" ++ collectionName ++ "\");\n\n" ++
    body ++
    "  console.log(\"" ++ toString dataArray.length ++ " flat documents added to " ++
      collectionName ++ " collection\");\n\x7d\n\n")

/-- The field loop of `generateReferencedDocuments` (part_001 lines 1011–1018):
a non-empty object field becomes `keyRef: doc(db, "keys", "…"),` (plain
`key + 's'`, always with a comma). -/
def refFieldsAux (env : JsEnv) (total : Nat) : Nat → List (String × JValue) → String
  | _, [] => ""
  | i, (k, v) :: rest =>
    (if isNonEmptyObjVal v then
      "    " ++ k ++ "Ref: doc(db, \"" ++ k ++ "s\", \"" ++ env.generateId true ++ "\"),\n"
    else
      "    " ++ k ++ ": " ++ firebaseValueToString v ++
        (if i < total - 1 then "," else "") ++ "\n") ++
    refFieldsAux env total (i + 1) rest

/-- `generateReferencedDocuments` (part_001 lines 970–1028). -/
def generateReferencedDocuments (env : JsEnv) (jsonData : JValue) (collectionName : String)
    (options : GenOptions) : Except String String := do
  let dataArray := toDataArray jsonData
  let collections := extractReferencedCollections dataArray [(collectionName, dataArray)]
  let body ← mapExceptIdx collections (fun _ pair => do
    let items := pair.2
    let itemsStr ← mapExceptIdx items (fun index item => do
      let entries ← jsEntriesOpt (some item)
      pure ("  // " ++ pair.1 ++ " document " ++ toString (index + 1) ++ "\n" ++
        (if options.addIds then
          "  const " ++ pair.1 ++ "Doc" ++ toString (index + 1) ++ " = doc(" ++ pair.1 ++
            "Ref, \"" ++ env.generateId true ++ "\");\n" ++
          "  await setDoc(" ++ pair.1 ++ "Doc" ++ toString (index + 1) ++ ", \x7b\n"
        else
          "  const " ++ pair.1 ++ "Doc" ++ toString (index + 1) ++ " = await addDoc(" ++
            pair.1 ++ "Ref, \x7b\n") ++
        (if options.addTimestamps then
          "    createdAt: serverTimestamp(),\n    updatedAt: serverTimestamp(),\n" else "") ++
        refFieldsAux env entries.length 0 entries ++
        "  \x7d);\n\n"))
    pure ("  // Collection: " ++ pair.1 ++ "\n" ++
      "  const " ++ pair.1 ++ "Ref = collection(db, \"" ++ pair.1 ++ "\");\n\n" ++ itemsStr))
  pure ("// Referenced document structure\n" ++
    "// Function to add documents with references to Firestore\n" ++
    "async function addReferencedDocuments() \x7b\n" ++ body ++
    "  console.log(\"Referenced documents added to Firestore\");\n\x7d\n\n")

/-- `generateArrayBasedDocuments` (part_001 lines 1037–1089). -/
def generateArrayBasedDocuments (env : JsEnv) (jsonData : JValue) (collectionName : String)
    (options : GenOptions) : Except String String := do
  let dataArray := toDataArray jsonData
  let itemsStr ← mapExceptIdx dataArray (fun index item => do
    let entries ← jsEntriesOpt (some item)
    pure ("      \x7b\n" ++
      (if options.addIds then "        id: \"" ++ env.generateId true ++ "\",\n" else "") ++
      fieldsBlock "        " firebaseValueToString entries ++
      "      \x7d" ++ (if index < dataArray.length - 1 then "," else "") ++ "\n"))
  pure ("// Array-based document structure\n" ++
    "// Function to add array-based document to Firestore\n" ++
    "async function addArrayBasedDocument() \x7b\n" ++
    "  const collectionRef = collection(db, \"" ++ collectionName ++ "\");\n\n" ++
    "  // Create a single document with items array\n" ++
    (if options.addIds then
      "  const docRef = doc(collectionRef, \"" ++ env.generateId true ++ "\");\n" ++
      "  await setDoc(docRef, \x7b\n"
    else "  await addDoc(collectionRef, \x7b\n") ++
    (if options.addTimestamps then
      "    createdAt: serverTimestamp(),\n    updatedAt: serverTimestamp(),\n" else "") ++
    "    items: [\n" ++ itemsStr ++ "    ]\n" ++ "  \x7d);\n\n" ++
    "  console.log(\"Array-based document added to " ++ collectionName ++
      " collection\");\n\x7d\n\n")

/-- `generateFirebaseDocuments` (part_001 lines 818–860). -/
def generateFirebaseDocuments (env : JsEnv) (jsonData : JValue) (structType : String)
    (options : GenOptions) : Except String String := do
  let collectionName :=
    if isJsArray jsonData then "items"
    else if (jsKeys jsonData).length > 0 then (jsKeys jsonData).headD "collection"
    else "collection"
  let body ←
    match structType with
    | "nested" => generateNestedDocuments env jsonData collectionName options
    | "flat" => generateFlatDocuments env jsonData collectionName options
    | "references" => generateReferencedDocuments env jsonData collectionName options
    | "arrays" => generateArrayBasedDocuments env jsonData collectionName options
    | _ => generateNestedDocuments env jsonData collectionName options
  pure ("// Firebase Firestore Code\n" ++
    "// Requires Firebase SDK to be initialized in your project\n\n" ++
    "// Import Firebase modules\n" ++
    "import \x7b getFirestore, collection, doc, setDoc, addDoc, serverTimestamp \x7d from \"firebase/firestore\";\n\n" ++
    "// Get Firestore instance\n" ++
    "const db = getFirestore();\n\n" ++
    body ++
    (if options.addIndexes then generateIndexSuggestions jsonData collectionName else ""))

end Firebase

example :
    okContains (Firebase.generateFirebaseDocuments testEnv
      (.obj [("users", .obj [("x", .num "1")])]) "nested" { dbName := some "mydb" })
      "collection(db, \"users\")" = true := by decide

namespace Dynamo

/-!
Embedding of the DynamoDB generator module (third module of
`src/unnamed/part_001`, lines 1245–1826).
-/

mutual
/-- `dynamoValueToString` (part_001 lines 1805–1824); numbers and booleans
have separate (identical) arms in the source. -/
def dynamoValueToString : JValue → String
  | .null => "null"
  | .bool b => if b then "true" else "false"
  | .num s => s
  | .str s => "\"" ++ escapeDoubleQuotes s ++ "\""
  | .date iso => "\"" ++ iso ++ "\""
  | .arr elems => "[" ++ String.intercalate ", " (dynamoValueList elems) ++ "]"
  | .obj fields => "\x7b " ++ String.intercalate ", " (dynamoFieldList fields) ++ " \x7d"

/-- `value.map(item => dynamoValueToString(item))`. -/
def dynamoValueList : List JValue → List String
  | [] => []
  | v :: vs => dynamoValueToString v :: dynamoValueList vs

/-- `Object.entries(value).map(([k, v]) => k + ": " + dynamoValueToString(v))`. -/
def dynamoFieldList : List (String × JValue) → List String
  | [] => []
  | (k, v) :: kvs => (k ++ ": " ++ dynamoValueToString v) :: dynamoFieldList kvs
end

/-- `flattenObject` (part_001 lines 1784–1798): underscore join. -/
def flattenObject (kvs : List (String × JValue)) (pre : String) : List (String × JValue) :=
  flattenFields "_" kvs pre []

/-- Entity naming of the object branch of `extractEntities` (part_001 line
1753): `key.charAt(0).toUpperCase() + key.slice(1)`. -/
def entityTypeName (key : String) : String := jsCapitalize key

/-- Entity naming of the array-of-objects branch of `extractEntities`
(part_001 lines 1764–1765): capitalize, then drop a trailing `s`. -/
def singularEntityName (key : String) : String :=
  let entityType := jsCapitalize key
  if strEndsWith entityType "s" then strDropLast entityType else entityType

/-- `extractEntities` (part_001 lines 1748–1776). -/
def extractEntities (items : List JValue) (entities : CollMap) : CollMap :=
  extractItems entityTypeName singularEntityName items entities

/-- `generateIndexSuggestions` (part_001 lines 1652–1741). -/
def generateIndexSuggestions (jsonData : JValue) (tableName : String) : String :=
  let indexFields := indexCandidatesOf jsonData
  "// DynamoDB Index Suggestions\n" ++
  "// These are suggestions for Global Secondary Indexes (GSIs)\n\n" ++
  (if indexFields.length > 0 then
    "// CloudFormation template snippet for GSIs\n" ++
    "/*\n" ++
    "Resources:\n" ++
    "  " ++ tableName ++ "Table:\n" ++
    "    Type: AWS::DynamoDB::Table\n" ++
    "    Properties:\n" ++
    "      TableName: " ++ tableName ++ "\n" ++
    "      AttributeDefinitions:\n" ++
    "        - AttributeName: id\n" ++
    "          AttributeType: S\n" ++
    String.join (indexFields.map (fun field =>
      "        - AttributeName: " ++ field ++ "\n          AttributeType: S\n")) ++
    "      KeySchema:\n" ++
    "        - AttributeName: id\n" ++
    "          KeyType: HASH\n" ++
    "      GlobalSecondaryIndexes:\n" ++
    concatIdx indexFields (fun index field =>
      "        - IndexName: " ++ field ++ "Index\n" ++
      "          KeySchema:\n" ++
      "            - AttributeName: " ++ field ++ "\n" ++
      "              KeyType: HASH\n" ++
      "          Projection:\n" ++
      "            ProjectionType: ALL\n" ++
      (if index < indexFields.length - 1 then "\n" else "")) ++
    "*/\n\n" ++
    "// AWS CLI command example:\n" ++
    "// aws dynamodb update-table \\\n" ++
    "//   --table-name " ++ tableName ++ " \\\n" ++
    "//   --attribute-definitions AttributeName=" ++ indexFields.headD "" ++
      ",AttributeType=S \\\n" ++
    "//   --global-secondary-index-updates \"[\x7b\\\"Create\\\":\x7b\\\"IndexName\\\":\\\"" ++
      indexFields.headD "" ++ "Index\\\",\\\"KeySchema\\\":[\x7b\\\"AttributeName\\\":\\\"" ++
      indexFields.headD "" ++
      "\\\",\\\"KeyType\\\":\\\"HASH\\\"\x7d],\\\"Projection\\\":\x7b\\\"ProjectionType\\\":\\\"ALL\\\"\x7d\x7d\x7d]\"\n\n"
  else "// No obvious index candidates found in this data structure\n\n")

/-- `generateNestedDocuments` (part_001 lines 1316–1427): `BatchWriteCommand`
for at most 25 items, one `PutCommand` per item above that. -/
def generateNestedDocuments (env : JsEnv) (jsonData : JValue) (tableName : String)
    (options : GenOptions) : Except String String := do
  let dataArray := toDataArray jsonData
  if dataArray.length ≤ 25 then
    let itemsStr ← mapExceptIdx dataArray (fun index item => do
      let entries ← jsEntriesOpt (some item)
      pure ("  // Item " ++ toString (index + 1) ++ "\n" ++
        "  items.push(\x7b\n    PutRequest: \x7b\n      Item: \x7b\n" ++
        (if options.addIds then "        id: \"" ++ env.generateId true ++ "\",\n"
         else "        id: \"" ++ toString (index + 1) ++ "\",\n") ++
        (match options.sortKey with
         | some sk => "        " ++ sk ++ ": \"" ++ env.nowISO ++ "\",\n"
         | none => "") ++
        (if options.addTimestamps then
          "        createdAt: \"" ++ env.nowISO ++ "\",\n" ++
          "        updatedAt: \"" ++ env.nowISO ++ "\",\n" else "") ++
        fieldsBlockComma "        " dynamoValueToString entries ++
        "      \x7d\n    \x7d\n  \x7d);\n\n"))
    pure ("// Nested document structure\n" ++
      "// Function to add items using BatchWriteCommand\n" ++
      "async function addNestedItems() \x7b\n  const items = [];\n\n" ++
      itemsStr ++
      "  const command = new BatchWriteCommand(\x7b\n    RequestItems: \x7b\n      \"" ++
        tableName ++ "\": items\n    \x7d\n  \x7d);\n\n" ++
      "  try \x7b\n    const response = await docClient.send(command);\n" ++
      "    console.log(\"Success - items added to " ++ tableName ++ "\");\n" ++
      "    return response;\n  \x7d catch (err) \x7b\n    console.error(\"Error:\", err);\n" ++
      "  \x7d\n\x7d\n\n")
  else
    let itemsStr ← mapExceptIdx dataArray (fun index item => do
      let entries ← jsEntriesOpt (some item)
      pure ("    // Item " ++ toString (index + 1) ++ "\n" ++
        "    await docClient.send(\n      new PutCommand(\x7b\n        TableName: \"" ++
          tableName ++ "\",\n        Item: \x7b\n" ++
        (if options.addIds then "          id: \"" ++ env.generateId true ++ "\",\n"
         else "          id: \"" ++ toString (index + 1) ++ "\",\n") ++
        (match options.sortKey with
         | some sk => "          " ++ sk ++ ": \"" ++ env.nowISO ++ "\",\n"
         | none => "") ++
        (if options.addTimestamps then
          "          createdAt: \"" ++ env.nowISO ++ "\",\n" ++
          "          updatedAt: \"" ++ env.nowISO ++ "\",\n" else "") ++
        fieldsBlockComma "          " dynamoValueToString entries ++
        "        \x7d\n      \x7d)\n    );\n\n"))
    pure ("// Nested document structure\n" ++
      "// Function to add items using individual PutCommand\n" ++
      "async function addNestedItems() \x7b\n  try \x7b\n" ++
      itemsStr ++
      "    console.log(\"Success - " ++ toString dataArray.length ++ " items added to " ++
        tableName ++ "\");\n" ++
      "  \x7d catch (err) \x7b\n    console.error(\"Error:\", err);\n  \x7d\n\x7d\n\n")

/-- `generateFlatDocuments` (part_001 lines 1436–1492). -/
def generateFlatDocuments (env : JsEnv) (jsonData : JValue) (tableName : String)
    (options : GenOptions) : Except String String := do
  let dataArray := toDataArray jsonData
  let itemsStr ← mapExceptIdx dataArray (fun index item => do
    let entries ← jsEntriesOpt (some item)
    let flattenedObject := flattenObject entries ""
    pure ("    // Item " ++ toString (index + 1) ++ "\n" ++
      "    await docClient.send(\n      new PutCommand(\x7b\n        TableName: \"" ++
        tableName ++ "\",\n        Item: \x7b\n" ++
      (if options.addIds then "          id: \"" ++ env.generateId true ++ "\",\n"
       else "          id: \"" ++ toString (index + 1) ++ "\",\n") ++
      (match options.sortKey with
       | some sk => "          " ++ sk ++ ": \"" ++ env.nowISO ++ "\",\n"
       | none => "") ++
      (if options.addTimestamps then
        "          createdAt: \"" ++ env.nowISO ++ "\",\n" ++
        "          updatedAt: \"" ++ env.nowISO ++ "\",\n" else "") ++
      fieldsBlockComma "          " dynamoValueToString flattenedObject ++
      "        \x7d\n      \x7d)\n    );\n\n"))
  pure ("// Flat document structure\n" ++
    "// Function to add flattened items\n" ++
    "async function addFlatItems() \x7b\n  try \x7b\n" ++
    itemsStr ++
    "    console.log(\"Success - " ++ toString dataArray.length ++ " flat items added to " ++
      tableName ++ "\");\n" ++
    "  \x7d catch (err) \x7b\n    console.error(\"Error:\", err);\n  \x7d\n\x7d\n\n")

/-- The field loop of `generateReferencedDocuments` (part_001 lines 1542–1552):
a non-empty object field becomes `keyId`/`keyType` lines (capitalized type),
anything else gets a trailing comma. -/
def refFieldsAux (env : JsEnv) : List (String × JValue) → String
  | [] => ""
  | (k, v) :: rest =>
    (if isNonEmptyObjVal v then
      "          " ++ k ++ "Id: \"" ++ env.generateId true ++ "\",\n" ++
      "          " ++ k ++ "Type: \"" ++ jsCapitalize k ++ "\",\n"
    else
      "          " ++ k ++ ": " ++ dynamoValueToString v ++ ",\n") ++
    refFieldsAux env rest

/-- `generateReferencedDocuments` (part_001 lines 1501–1574). -/
def generateReferencedDocuments (env : JsEnv) (jsonData : JValue) (tableName : String)
    (options : GenOptions) : Except String String := do
  let dataArray := toDataArray jsonData
  let entities := extractEntities dataArray [("Main", dataArray)]
  let body ← mapExceptIdx entities (fun _ pair => do
    let items := pair.2
    mapExceptIdx items (fun index item => do
      let entries ← jsEntriesOpt (some item)
      let itemId := env.generateId true
      pure ("    // " ++ pair.1 ++ " item " ++ toString (index + 1) ++ "\n" ++
        "    await docClient.send(\n      new PutCommand(\x7b\n        TableName: \"" ++
          tableName ++ "\",\n        Item: \x7b\n" ++
        "          PK: \"" ++ pair.1 ++ "#" ++ itemId ++ "\",\n" ++
        "          SK: \"" ++ pair.1 ++ "#" ++ itemId ++ "\",\n" ++
        "          type: \"" ++ pair.1 ++ "\",\n" ++
        "          id: \"" ++ itemId ++ "\",\n" ++
        (if options.addTimestamps then
          "          createdAt: \"" ++ env.nowISO ++ "\",\n" ++
          "          updatedAt: \"" ++ env.nowISO ++ "\",\n" else "") ++
        refFieldsAux env entries ++
        "        \x7d\n      \x7d)\n    );\n\n")))
  pure ("// Referenced document structure using single table design\n" ++
    "// This approach uses a single table with different item types\n\n" ++
    "// Function to add items with references\n" ++
    "async function addReferencedItems() \x7b\n  try \x7b\n" ++
    body ++
    (if entities.length > 1 then
      "    // Note: In a real application, you would create relationships\n" ++
      "    // between entities using GSIs (Global Secondary Indexes)\n" ++
      "    // Example: PK: \"Main#123\", SK: \"RelatedEntity#456\"\n\n"
    else "") ++
    "    console.log(\"Success - items added to " ++ tableName ++ " with references\");\n" ++
    "  \x7d catch (err) \x7b\n    console.error(\"Error:\", err);\n  \x7d\n\x7d\n\n")

/-- `generateArrayBasedDocuments` (part_001 lines 1583–1644). -/
def generateArrayBasedDocuments (env : JsEnv) (jsonData : JValue) (tableName : String)
    (options : GenOptions) : Except String String := do
  let dataArray := toDataArray jsonData
  let itemsStr ← mapExceptIdx dataArray (fun index item => do
    let entries ← jsEntriesOpt (some item)
    pure ("            \x7b\n" ++
      (if options.addIds then "              id: \"" ++ env.generateId true ++ "\",\n"
       else "              id: \"item-" ++ toString (index + 1) ++ "\",\n") ++
      fieldsBlockComma "              " dynamoValueToString entries ++
      "            \x7d" ++ (if index < dataArray.length - 1 then "," else "") ++ "\n"))
  pure ("// Array-based document structure\n" ++
    "// Function to add a single item with array of sub-items\n" ++
    "async function addArrayBasedItem() \x7b\n  try \x7b\n" ++
    "    // Create a single item with sub-items array\n" ++
    "    await docClient.send(\n      new PutCommand(\x7b\n        TableName: \"" ++
      tableName ++ "\",\n        Item: \x7b\n" ++
    (if options.addIds then "          id: \"" ++ env.generateId true ++ "\",\n"
     else "          id: \"main-item\",\n") ++
    (if options.addTimestamps then
      "          createdAt: \"" ++ env.nowISO ++ "\",\n" ++
      "          updatedAt: \"" ++ env.nowISO ++ "\",\n" else "") ++
    "          items: [\n" ++ itemsStr ++ "          ]\n" ++
    "        \x7d\n      \x7d)\n    );\n\n" ++
    "    console.log(\"Success - array-based item added to " ++ tableName ++ "\");\n" ++
    "  \x7d catch (err) \x7b\n    console.error(\"Error:\", err);\n  \x7d\n\x7d\n\n")

/-- `generateDynamoDBDocuments` (part_001 lines 1263–1307). -/
def generateDynamoDBDocuments (env : JsEnv) (jsonData : JValue) (structType : String)
    (options : GenOptions) : Except String String := do
  let tableName :=
    if isJsArray jsonData then "Items"
    else if (jsKeys jsonData).length > 0 then (jsKeys jsonData).headD "DynamoTable"
    else "DynamoTable"
  let body ←
    match structType with
    | "nested" => generateNestedDocuments env jsonData tableName options
    | "flat" => generateFlatDocuments env jsonData tableName options
    | "references" => generateReferencedDocuments env jsonData tableName options
    | "arrays" => generateArrayBasedDocuments env jsonData tableName options
    | _ => generateNestedDocuments env jsonData tableName options
  pure ("// AWS DynamoDB Code\n" ++
    "// Requires AWS SDK to be initialized in your project\n\n" ++
    "// Import AWS SDK modules\n" ++
    "import \x7b DynamoDBClient \x7d from \"@aws-sdk/client-dynamodb\";\n" ++
    "import \x7b DynamoDBDocumentClient, PutCommand, BatchWriteCommand \x7d from \"@aws-sdk/lib-dynamodb\";\n\n" ++
    "// Initialize DynamoDB client\n" ++
    "const client = new DynamoDBClient(\x7b region: \"us-east-1\" \x7d);\n" ++
    "const docClient = DynamoDBDocumentClient.from(client);\n\n" ++
    body ++
    (if options.addIndexes then generateIndexSuggestions jsonData tableName else ""))

end Dynamo

example :
    okContains (Dynamo.generateDynamoDBDocuments testEnv
      (.arr [.obj [("x", .num "1")], .obj [("x", .num "2")]]) "nested" {})
      "new BatchWriteCommand" = true := by decide

namespace Couch

/-!
Embedding of the CouchDB generator module (`src/js/nosql/couchdbGenerator.js`).
-/

mutual
/-- `couchValueToString` (couchdbGenerator.js lines 602–619): a `Date`
serializes to its quoted ISO string, with no constructor wrapper. -/
def couchValueToString : JValue → String
  | .null => "null"
  | .bool b => if b then "true" else "false"
  | .num s => s
  | .str s => "\"" ++ escapeDoubleQuotes s ++ "\""
  | .date iso => "\"" ++ iso ++ "\""
  | .arr elems => "[" ++ String.intercalate ", " (couchValueList elems) ++ "]"
  | .obj fields => "\x7b " ++ String.intercalate ", " (couchFieldList fields) ++ " \x7d"

/-- `value.map(item => couchValueToString(item))`. -/
def couchValueList : List JValue → List String
  | [] => []
  | v :: vs => couchValueToString v :: couchValueList vs

/-- `Object.entries(value).map(([k, v]) => k + ": " + couchValueToString(v))`. -/
def couchFieldList : List (String × JValue) → List String
  | [] => []
  | (k, v) :: kvs => (k ++ ": " ++ couchValueToString v) :: couchFieldList kvs
end

/-- `flattenObject` (couchdbGenerator.js lines 581–595): underscore join. -/
def flattenObject (kvs : List (String × JValue)) (pre : String) : List (String × JValue) :=
  flattenFields "_" kvs pre []

/-- Doc-type naming of the object branch of `extractReferencedDocTypes`
(couchdbGenerator.js line 553): the key itself, unchanged. -/
def objDocTypeName (key : String) : String := key

/-- Doc-type naming of the array-of-objects branch of
`extractReferencedDocTypes` (couchdbGenerator.js line 562):
`key.endsWith('s') ? key.slice(0, -1) : key`. -/
def singularDocTypeName (key : String) : String :=
  if strEndsWith key "s" then strDropLast key else key

/-- `extractReferencedDocTypes` (couchdbGenerator.js lines 548–573). -/
def extractReferencedDocTypes (items : List JValue) (docTypes : CollMap) : CollMap :=
  extractItems objDocTypeName singularDocTypeName items docTypes

/-- `generateIndexSuggestions` (couchdbGenerator.js lines 453–541). -/
def generateIndexSuggestions (jsonData : JValue) : String :=
  let indexFields := indexCandidatesOf jsonData
  "// CouchDB Index Suggestions\n" ++
  "// Function to create indexes\n" ++
  "async function createIndexes() \x7b\n" ++
  (if indexFields.length > 0 then
    "  // Create type index for document types\n" ++
    "  try \x7b\n" ++
    "    await db.createIndex(\x7b\n" ++
    "      index: \x7b fields: [\x27type\x27] \x7d,\n" ++
    "      name: \x27type-index\x27\n" ++
    "    \x7d);\n" ++
    "    console.log(\"Type index created successfully\");\n" ++
    "  \x7d catch (err) \x7b\n" ++
    "    console.error(\"Error creating type index:\", err);\n" ++
    "  \x7d\n\n" ++
    String.join (indexFields.map (fun field =>
      "  // Create index for " ++ field ++ "\n" ++
      "  try \x7b\n" ++
      "    await db.createIndex(\x7b\n" ++
      "      index: \x7b fields: [\x27" ++ field ++ "\x27] \x7d,\n" ++
      "      name: \x27" ++ field ++ "-index\x27\n" ++
      "    \x7d);\n" ++
      "    console.log(\"" ++ field ++ " index created successfully\");\n" ++
      "  \x7d catch (err) \x7b\n" ++
      "    console.error(\"Error creating " ++ field ++ " index:\", err);\n" ++
      "  \x7d\n\n")) ++
    (if indexFields.length > 1 then
      "  // Create compound index\n" ++
      "  try \x7b\n" ++
      "    await db.createIndex(\x7b\n" ++
      "      index: \x7b fields: [" ++
        String.intercalate ", " ((indexFields.take 2).map
          (fun f => "\x27" ++ f ++ "\x27")) ++ "] \x7d,\n" ++
      "      name: \x27compound-index\x27\n" ++
      "    \x7d);\n" ++
      "    console.log(\"Compound index created successfully\");\n" ++
      "  \x7d catch (err) \x7b\n" ++
      "    console.error(\"Error creating compound index:\", err);\n" ++
      "  \x7d\n"
    else "")
  else "  console.log(\"No obvious index candidates found in this data structure\");\n") ++
  "\x7d\n\n"

/-- `generateNestedDocuments` (couchdbGenerator.js lines 114–201): bulk branch
for more than one document, otherwise a single-document branch that reads
`dataArray[0]` — which is `undefined` for an empty array, so
`Object.entries(item)` then raises the JavaScript `TypeError`. -/
def generateNestedDocuments (env : JsEnv) (jsonData : JValue)
    (options : GenOptions) : Except String String := do
  let dataArray := toDataArray jsonData
  let pre := "// Nested document structure\n// Function to add nested documents\n" ++
    "async function addNestedDocuments() \x7b\n"
  if dataArray.length > 1 then
    let docsStr ← mapExceptIdx dataArray (fun index item => do
      let entries ← jsEntriesOpt (some item)
      pure ("    \x7b\n" ++
        (if options.addIds then "      _id: \"" ++ env.generateId true ++ "\",\n" else "") ++
        (if options.addTimestamps then
          "      createdAt: \"" ++ env.nowISO ++ "\",\n" ++
          "      updatedAt: \"" ++ env.nowISO ++ "\",\n" else "") ++
        fieldsBlock "      " couchValueToString entries ++
        "    \x7d" ++ (if index < dataArray.length - 1 then "," else "") ++ "\n"))
    pure (pre ++
      "  // Prepare documents for bulk insert\n  const docs = [\n" ++ docsStr ++
      "  ];\n\n" ++
      "  try \x7b\n    const response = await db.bulk(\x7b docs \x7d);\n" ++
      "    console.log(\"Bulk insert successful:\", response.length, \"documents inserted\");\n" ++
      "    return response;\n  \x7d catch (err) \x7b\n" ++
      "    console.error(\"Error inserting documents:\", err);\n    throw err;\n  \x7d\n" ++
      "\x7d\n\n")
  else
    let entries ← jsEntriesOpt dataArray.head?
    pure (pre ++
      "  // Prepare document\n  const doc = \x7b\n" ++
      (if options.addIds then "    _id: \"" ++ env.generateId true ++ "\",\n" else "") ++
      (if options.addTimestamps then
        "    createdAt: \"" ++ env.nowISO ++ "\",\n" ++
        "    updatedAt: \"" ++ env.nowISO ++ "\",\n" else "") ++
      fieldsBlock "    " couchValueToString entries ++
      "  \x7d;\n\n" ++
      "  try \x7b\n    const response = await db.insert(doc);\n" ++
      "    console.log(\"Document inserted successfully:\", response.id);\n" ++
      "    return response;\n  \x7d catch (err) \x7b\n" ++
      "    console.error(\"Error inserting document:\", err);\n    throw err;\n  \x7d\n" ++
      "\x7d\n\n")

/-- `generateFlatDocuments` (couchdbGenerator.js lines 209–300); the single
branch calls `flattenObject(dataArray[0])`, which raises on an empty array. -/
def generateFlatDocuments (env : JsEnv) (jsonData : JValue)
    (options : GenOptions) : Except String String := do
  let dataArray := toDataArray jsonData
  let pre := "// Flat document structure\n// Function to add flat documents\n" ++
    "async function addFlatDocuments() \x7b\n"
  if dataArray.length > 1 then
    let docsStr ← mapExceptIdx dataArray (fun index item => do
      let entries ← jsEntriesOpt (some item)
      let flattenedObject := flattenObject entries ""
      pure ("    \x7b\n" ++
        (if options.addIds then "      _id: \"" ++ env.generateId true ++ "\",\n" else "") ++
        (if options.addTimestamps then
          "      createdAt: \"" ++ env.nowISO ++ "\",\n" ++
          "      updatedAt: \"" ++ env.nowISO ++ "\",\n" else "") ++
        fieldsBlock "      " couchValueToString flattenedObject ++
        "    \x7d" ++ (if index < dataArray.length - 1 then "," else "") ++ "\n"))
    pure (pre ++
      "  // Prepare documents for bulk insert\n  const docs = [\n" ++ docsStr ++
      "  ];\n\n" ++
      "  try \x7b\n    const response = await db.bulk(\x7b docs \x7d);\n" ++
      "    console.log(\"Bulk insert successful:\", response.length, \"flat documents inserted\");\n" ++
      "    return response;\n  \x7d catch (err) \x7b\n" ++
      "    console.error(\"Error inserting flat documents:\", err);\n    throw err;\n  \x7d\n" ++
      "\x7d\n\n")
  else
    let entries ← jsEntriesOpt dataArray.head?
    let flattenedObject := flattenObject entries ""
    pure (pre ++
      "  // Prepare flat document\n  const doc = \x7b\n" ++
      (if options.addIds then "    _id: \"" ++ env.generateId true ++ "\",\n" else "") ++
      (if options.addTimestamps then
        "    createdAt: \"" ++ env.nowISO ++ "\",\n" ++
        "    updatedAt: \"" ++ env.nowISO ++ "\",\n" else "") ++
      fieldsBlock "    " couchValueToString flattenedObject ++
      "  \x7d;\n\n" ++
      "  try \x7b\n    const response = await db.insert(doc);\n" ++
      "    console.log(\"Flat document inserted successfully:\", response.id);\n" ++
      "    return response;\n  \x7d catch (err) \x7b\n" ++
      "    console.error(\"Error inserting flat document:\", err);\n    throw err;\n  \x7d\n" ++
      "\x7d\n\n")

/-- The field loop of `generateReferencedDocuments` (couchdbGenerator.js
lines 345–354): a non-empty object field becomes `keyId: "key_…",` (always
with a comma). -/
def refFieldsAux (env : JsEnv) (total : Nat) : Nat → List (String × JValue) → String
  | _, [] => ""
  | i, (k, v) :: rest =>
    (if isNonEmptyObjVal v then
      "      " ++ k ++ "Id: \"" ++ k ++ "_" ++ env.generateId true ++ "\",\n"
    else
      "      " ++ k ++ ": " ++ couchValueToString v ++
        (if i < total - 1 then "," else "") ++ "\n") ++
    refFieldsAux env total (i + 1) rest

/-- `generateReferencedDocuments` (couchdbGenerator.js lines 308–380);
every document gets `_id: "type_…"` and `type` fields unconditionally. -/
def generateReferencedDocuments (env : JsEnv) (jsonData : JValue)
    (options : GenOptions) : Except String String := do
  let dataArray := toDataArray jsonData
  let docTypes := extractReferencedDocTypes dataArray [("main", dataArray)]
  let body ← mapExceptIdx docTypes (fun _ pair => do
    let items := pair.2
    let itemsStr ← mapExceptIdx items (fun index item => do
      let entries ← jsEntriesOpt (some item)
      let docId := env.generateId true
      pure ("    \x7b\n" ++
        "      _id: \"" ++ pair.1 ++ "_" ++ docId ++ "\",\n" ++
        "      type: \"" ++ pair.1 ++ "\",\n" ++
        (if options.addTimestamps then
          "      createdAt: \"" ++ env.nowISO ++ "\",\n" ++
          "      updatedAt: \"" ++ env.nowISO ++ "\",\n" else "") ++
        refFieldsAux env entries.length 0 entries ++
        "    \x7d" ++ (if index < items.length - 1 then "," else "") ++ "\n"))
    pure ("  // " ++ pair.1 ++ " documents\n" ++
      "  const " ++ pair.1 ++ "Docs = [\n" ++ itemsStr ++ "  ];\n\n"))
  pure ("// Referenced document structure\n" ++
    "// Function to add documents with references\n" ++
    "async function addReferencedDocuments() \x7b\n" ++
    body ++
    "  // Combine all documents for bulk insert\n" ++
    "  const allDocs = [\n" ++
    "    ..." ++ String.intercalate "Docs,\n    ..." (docTypes.map Prod.fst) ++ "\n" ++
    "  ];\n\n" ++
    "  try \x7b\n    const response = await db.bulk(\x7b docs: allDocs \x7d);\n" ++
    "    console.log(\"Bulk insert successful:\", response.length, \"documents with references inserted\");\n" ++
    "    return response;\n  \x7d catch (err) \x7b\n" ++
    "    console.error(\"Error inserting documents with references:\", err);\n" ++
    "    throw err;\n  \x7d\n" ++
    "\x7d\n\n")

/-- `generateArrayBasedDocuments` (couchdbGenerator.js lines 388–446). -/
def generateArrayBasedDocuments (env : JsEnv) (jsonData : JValue)
    (options : GenOptions) : Except String String := do
  let dataArray := toDataArray jsonData
  let itemsStr ← mapExceptIdx dataArray (fun index item => do
    let entries ← jsEntriesOpt (some item)
    pure ("      \x7b\n" ++
      (if options.addIds then "        id: \"" ++ env.generateId true ++ "\",\n" else "") ++
      fieldsBlock "        " couchValueToString entries ++
      "      \x7d" ++ (if index < dataArray.length - 1 then "," else "") ++ "\n"))
  pure ("// Array-based document structure\n" ++
    "// Function to add array-based document\n" ++
    "async function addArrayBasedDocument() \x7b\n" ++
    "  // Prepare document with items array\n  const doc = \x7b\n" ++
    (if options.addIds then "    _id: \"" ++ env.generateId true ++ "\",\n" else "") ++
    (if options.addTimestamps then
      "    createdAt: \"" ++ env.nowISO ++ "\",\n" ++
      "    updatedAt: \"" ++ env.nowISO ++ "\",\n" else "") ++
    "    items: [\n" ++ itemsStr ++ "    ]\n" ++ "  \x7d;\n\n" ++
    "  try \x7b\n    const response = await db.insert(doc);\n" ++
    "    console.log(\"Array-based document inserted successfully:\", response.id);\n" ++
    "    return response;\n  \x7d catch (err) \x7b\n" ++
    "    console.error(\"Error inserting array-based document:\", err);\n    throw err;\n  \x7d\n" ++
    "\x7d\n\n")

/-- `generateCouchDBDocuments` (couchdbGenerator.js lines 19–106): client
setup and database creation, the structure switch, optional index
suggestions, then a `main()` driver that repeats the switch. -/
def generateCouchDBDocuments (env : JsEnv) (jsonData : JValue) (structType : String)
    (options : GenOptions) : Except String String := do
  let dbName := options.dbName.getD "nosql_generator_db"
  let body ←
    match structType with
    | "nested" => generateNestedDocuments env jsonData options
    | "flat" => generateFlatDocuments env jsonData options
    | "references" => generateReferencedDocuments env jsonData options
    | "arrays" => generateArrayBasedDocuments env jsonData options
    | _ => generateNestedDocuments env jsonData options
  pure ("// CouchDB Code\n" ++
    "// Requires nano (CouchDB client) to be installed\n\n" ++
    "// Import nano\n" ++
    "const nano = require(\"nano\")(\"http://localhost:5984\");\n\n" ++
    "// Create database if it doesn\x27t exist\n" ++
    "async function createDatabase() \x7b\n" ++
    "  try \x7b\n" ++
    "    await nano.db.create(\"" ++ dbName ++ "\");\n" ++
    "    console.log(\"Database \x27" ++ dbName ++ "\x27 created\");\n" ++
    "  \x7d catch (err) \x7b\n" ++
    "    if (err.statusCode === 412) \x7b\n" ++
    "      console.log(\"Database \x27" ++ dbName ++ "\x27 already exists\");\n" ++
    "    \x7d else \x7b\n" ++
    "      console.error(\"Error creating database:\", err);\n" ++
    "    \x7d\n" ++
    "  \x7d\n" ++
    "\x7d\n\n" ++
    "// Get database reference\n" ++
    "const db = nano.use(\"" ++ dbName ++ "\");\n\n" ++
    body ++
    (if options.addIndexes then generateIndexSuggestions jsonData else "") ++
    "// Main function to execute all operations\n" ++
    "async function main() \x7b\n" ++
    "  await createDatabase();\n" ++
    (match structType with
     | "nested" => "  await addNestedDocuments();\n"
     | "flat" => "  await addFlatDocuments();\n"
     | "references" => "  await addReferencedDocuments();\n"
     | "arrays" => "  await addArrayBasedDocument();\n"
     | _ => "  await addNestedDocuments();\n") ++
    (if options.addIndexes then "  await createIndexes();\n" else "") ++
    "\x7d\n\n" ++
    "// Run the main function\n" ++
    "main().catch(err => console.error(\"Error:\", err));\n")

end Couch

/-- `generateNoSQL` (README.md lines 477–551, the `nosqlGenerator.js`
dispatcher): only falsy inputs are rejected, then the backend switch runs;
the DOM/state side effects around the returned string are omitted.
`structType` is the `structure` argument. -/
def generateNoSQL (env : JsEnv) (jsonData : JValue) (dbType : String) (structType : String)
    (options : GenOptions) : Except String String :=
  if jsTruthy jsonData = false then .error "No JSON data provided"
  else if dbType = "" then .error "No database type selected"
  else if structType = "" then .error "No document structure selected"
  else
    match dbType with
    | "mongodb" => Mongo.generateMongoDBDocuments env jsonData structType options
    | "firebase" => Firebase.generateFirebaseDocuments env jsonData structType options
    | "dynamodb" => Dynamo.generateDynamoDBDocuments env jsonData structType options
    | "couchdb" => Couch.generateCouchDBDocuments env jsonData structType options
    | _ => .error ("Unsupported database type: " ++ dbType)

example :
    (Couch.generateCouchDBDocuments testEnv (.arr []) "nested" {}) =
    .error "TypeError: Cannot convert undefined or null to object" := rfl

example : (generateNoSQL testEnv (.num "42") "mongodb" "nested" {}).isOk = true := by decide

example : (generateNoSQL testEnv (.str "hello") "couchdb" "nested" {}).isOk = true := by decide

/-!
Abstractions for the reference-extraction completeness claim: the set of
field names reachable in a value, and the set of field names that the
referenced-documents emitter actually prints for a collection map (each
document prints `key ++ "Ref"` for a non-empty object field — part_002 lines
192–199 — and the serialized value, nested keys included, for every other
field).  The key walk goes through the same fallible `Object.entries` as the
emission loop, so a `null` item — on which the source throws a `TypeError`
and prints nothing — yields an error, not a key set.
-/

mutual
/-- Every object key reachable in a value, through objects and arrays. -/
def reachableKeys : JValue → List String
  | .obj kvs => reachableKeysFields kvs
  | .arr l => reachableKeysList l
  | _ => []

/-- `reachableKeys` over a list of values. -/
def reachableKeysList : List JValue → List String
  | [] => []
  | v :: vs => reachableKeys v ++ reachableKeysList vs

/-- `reachableKeys` over object fields: each key, then the keys in its value. -/
def reachableKeysFields : List (String × JValue) → List String
  | [] => []
  | (k, v) :: kvs => k :: (reachableKeys v ++ reachableKeysFields kvs)
end

/-- The field names printed for one referenced document with the given
entries: `key ++ "Ref"` replaces a non-empty object field, every other field
is printed with all keys inside its serialized value. -/
def refFieldKeys (es : List (String × JValue)) : List String :=
  es.flatMap (fun kv =>
    if isNonEmptyObjVal kv.2 then [kv.1 ++ "Ref"] else kv.1 :: reachableKeys kv.2)

/-- The field names printed for the documents of one items list, through the
same fallible `Object.entries` (`jsEntriesOpt`) as the emission loop: a
`null` item raises the `TypeError` and nothing is printed. -/
def refDocKeysList : List JValue → Except String (List String)
  | [] => .ok []
  | it :: its => do
    let entries ← jsEntriesOpt (some it)
    let rest ← refDocKeysList its
    pure (refFieldKeys entries ++ rest)

/-- All field names printed across every document of a collection map, or
the `TypeError` on which the source aborts with nothing printed. -/
def emittedKeysOfColl : CollMap → Except String (List String)
  | [] => .ok []
  | p :: m => do
    let ks ← refDocKeysList p.2
    let rest ← emittedKeysOfColl m
    pure (ks ++ rest)

namespace Mongo

/-- The field names printed by `generateReferencedDocuments` (part_002 lines
158–208): the collection map it builds, pushed through the per-document field
rule of its emission loop — or the `TypeError` the source raises when a
`null` reaches `Object.entries`, in which case nothing is printed. -/
def referencedEmittedKeys (jsonData : JValue) (collectionName : String) :
    Except String (List String) :=
  let dataArray := toDataArray jsonData
  emittedKeysOfColl (extractReferencedCollections dataArray [(collectionName, dataArray)])

end Mongo

/-- Membership of a value among the items of a collection map. -/
def collMem (m : CollMap) (x : JValue) : Prop := ∃ p ∈ m, x ∈ p.2

theorem collMem_pushItems {m : CollMap} {x : JValue} (n : String) (vs : List JValue)
    (h : collMem m x) : collMem (pushItems m n vs) x := by
  obtain ⟨p, hp, hx⟩ := h
  unfold pushItems
  split
  · exact ⟨(if p.1 = n then (p.1, p.2 ++ vs) else p), List.mem_map_of_mem _ hp, by
      split
      · exact List.mem_append_left _ hx
      · exact hx⟩
  · exact ⟨p, List.mem_append_left _ hp, hx⟩

theorem collMem_pushItems_self {m : CollMap} {x : JValue} (n : String) {vs : List JValue}
    (h : x ∈ vs) : collMem (pushItems m n vs) x := by
  unfold pushItems
  split
  · rename_i hany
    obtain ⟨p, hp, hpn⟩ := List.any_eq_true.mp hany
    refine ⟨(p.1, p.2 ++ vs), ?_, List.mem_append_right _ h⟩
    have : (if p.1 = n then (p.1, p.2 ++ vs) else p) = (p.1, p.2 ++ vs) := by
      simp [of_decide_eq_true hpn]
    exact this ▸ List.mem_map_of_mem _ hp
  · exact ⟨(n, vs), List.mem_append_right _ (List.mem_singleton.mpr rfl), h⟩

mutual
theorem extractItems_mono (f g : String → String) (x : JValue) :
    ∀ (its : List JValue) (m : CollMap), collMem m x → collMem (extractItems f g its m) x
  | [], m, h => by simpa [extractItems] using h
  | it :: its, m, h => by
    rw [extractItems]
    exact extractItems_mono f g x its _ (extractItem_mono f g x it m h)

theorem extractItem_mono (f g : String → String) (x : JValue) :
    ∀ (it : JValue) (m : CollMap), collMem m x → collMem (extractItem f g it m) x
  | .obj kvs, m, h => by rw [extractItem]; exact extractEntries_mono f g x kvs m h
  | .arr l, m, h => by rw [extractItem]; exact extractArrEntries_mono f g x 0 l m h
  | .null, m, h => by simpa [extractItem] using h
  | .bool _, m, h => by simpa [extractItem] using h
  | .num _, m, h => by simpa [extractItem] using h
  | .str _, m, h => by simpa [extractItem] using h
  | .date _, m, h => by simpa [extractItem] using h

theorem extractArrEntries_mono (f g : String → String) (x : JValue) :
    ∀ (i : Nat) (l : List JValue) (m : CollMap),
      collMem m x → collMem (extractArrEntries f g i l m) x
  | _, [], m, h => by simpa [extractArrEntries] using h
  | i, v :: vs, m, h => by
    rw [extractArrEntries]
    exact extractArrEntries_mono f g x (i + 1) vs _
      (extractValue_mono f g x (toString i) v m h)

theorem extractEntries_mono (f g : String → String) (x : JValue) :
    ∀ (es : List (String × JValue)) (m : CollMap),
      collMem m x → collMem (extractEntries f g es m) x
  | [], m, h => by simpa [extractEntries] using h
  | (k, v) :: es, m, h => by
    rw [extractEntries]
    exact extractEntries_mono f g x es _ (extractValue_mono f g x k v m h)

theorem extractValue_mono (f g : String → String) (x : JValue) :
    ∀ (k : String) (v : JValue) (m : CollMap), collMem m x → collMem (extractValue f g k v m) x
  | k, .arr (e :: rest), m, h => by
    rw [extractValue]
    simp only [isNonEmptyObjVal]
    split
    · exact extractItems_mono f g x (e :: rest) _ (collMem_pushItems _ _ h)
    · exact h
  | k, .arr [], m, h => by simpa [extractValue, isNonEmptyObjVal] using h
  | k, .obj [], m, h => by simpa [extractValue, isNonEmptyObjVal] using h
  | k, .obj (kv :: kvs), m, h => by
    simpa [extractValue, isNonEmptyObjVal] using collMem_pushItems (f k) [.obj (kv :: kvs)] h
  | k, .null, m, h => by simpa [extractValue, isNonEmptyObjVal] using h
  | k, .bool _, m, h => by simpa [extractValue, isNonEmptyObjVal] using h
  | k, .num _, m, h => by simpa [extractValue, isNonEmptyObjVal] using h
  | k, .str _, m, h => by simpa [extractValue, isNonEmptyObjVal] using h
  | k, .date _, m, h => by simpa [extractValue, isNonEmptyObjVal] using h
end

theorem extractValue_pushes (f g : String → String) (k : String) {v : JValue} (m : CollMap)
    (hv : isNonEmptyObjVal v = true) : collMem (extractValue f g k v m) v := by
  match v, hv with
  | .obj (kv :: kvs), _ =>
    simpa [extractValue, isNonEmptyObjVal] using
      collMem_pushItems_self (m := m) (f k) (List.mem_singleton.mpr rfl)

theorem extractEntries_pushes (f g : String → String) :
    ∀ (es : List (String × JValue)) (m : CollMap) (k : String) (v : JValue),
      (k, v) ∈ es → isNonEmptyObjVal v = true → collMem (extractEntries f g es m) v
  | (k0, v0) :: es, m, k, v, hin, hv => by
    rw [extractEntries]
    rcases List.mem_cons.mp hin with heq | htl
    · obtain ⟨hk, hv'⟩ := Prod.mk.injEq .. ▸ heq
      subst hv'
      exact extractEntries_mono f g v es _ (hk ▸ extractValue_pushes f g k0 m hv)
    · exact extractEntries_pushes f g es _ k v htl hv

theorem extractArrEntries_pushes (f g : String → String) :
    ∀ (i : Nat) (l : List JValue) (m : CollMap) (x : JValue),
      x ∈ l → isNonEmptyObjVal x = true → collMem (extractArrEntries f g i l m) x
  | i, v0 :: l, m, x, hin, hv => by
    rw [extractArrEntries]
    rcases List.mem_cons.mp hin with heq | htl
    · subst heq
      exact extractArrEntries_mono f g x (i + 1) l _ (extractValue_pushes f g (toString i) m hv)
    · exact extractArrEntries_pushes f g (i + 1) l _ x htl hv

theorem mem_of_mem_indexedFrom : ∀ (i : Nat) (l : List JValue) (kv : String × JValue),
    kv ∈ indexedFrom i l → kv.2 ∈ l
  | i, v :: vs, kv, hin => by
    rw [indexedFrom] at hin
    rcases List.mem_cons.mp hin with heq | htl
    · subst heq; exact List.mem_cons_self _ _
    · exact List.mem_cons_of_mem _ (mem_of_mem_indexedFrom (i + 1) vs kv htl)

theorem strCharEntries_not_obj : ∀ (i : Nat) (cs : List Char) (kv : String × JValue),
    kv ∈ strCharEntries i cs → isNonEmptyObjVal kv.2 = false
  | i, c :: cs, kv, hin => by
    rw [strCharEntries] at hin
    rcases List.mem_cons.mp hin with heq | htl
    · subst heq; rfl
    · exact strCharEntries_not_obj (i + 1) cs kv htl

theorem extractItem_pushes (f g : String → String) (it : JValue) (m : CollMap)
    (k : String) (v : JValue) (hin : (k, v) ∈ jsEntries it)
    (hv : isNonEmptyObjVal v = true) : collMem (extractItem f g it m) v := by
  match it with
  | .obj kvs =>
    rw [extractItem]
    exact extractEntries_pushes f g kvs m k v (by simpa [jsEntries] using hin) hv
  | .arr l =>
    rw [extractItem]
    exact extractArrEntries_pushes f g 0 l m v
      (mem_of_mem_indexedFrom 0 l (k, v) (by simpa [jsEntries] using hin)) hv
  | .str s =>
    exact absurd hv (by simp [strCharEntries_not_obj 0 s.data (k, v)
      (by simpa [jsEntries] using hin)])
  | .null => simp [jsEntries] at hin
  | .bool _ => simp [jsEntries] at hin
  | .num _ => simp [jsEntries] at hin
  | .date _ => simp [jsEntries] at hin

theorem extractItems_pushes (f g : String → String) :
    ∀ (its : List JValue) (m : CollMap) (it : JValue) (k : String) (v : JValue),
      it ∈ its → (k, v) ∈ jsEntries it → isNonEmptyObjVal v = true →
      collMem (extractItems f g its m) v
  | it0 :: its, m, it, k, v, hits, hin, hv => by
    rw [extractItems]
    rcases List.mem_cons.mp hits with heq | htl
    · subst heq
      exact extractItems_mono f g v its _ (extractItem_pushes f g it m k v hin hv)
    · exact extractItems_pushes f g its _ it k v htl hin hv

theorem exceptBind_ok {ε α β : Type} {a : Except ε α} {g : α → Except ε β} {b : β}
    (h : a >>= g = .ok b) : ∃ v, a = .ok v ∧ g v = .ok b := by
  cases a with
  | error e => exact Except.noConfusion h
  | ok v => exact ⟨v, rfl, h⟩

theorem jsEntriesOpt_some_ok {v : JValue} {es : List (String × JValue)}
    (h : jsEntriesOpt (some v) = .ok es) : es = jsEntries v := by
  cases v with
  | null => exact Except.noConfusion h
  | bool b => exact (Except.ok.inj h).symm
  | num s => exact (Except.ok.inj h).symm
  | str s => exact (Except.ok.inj h).symm
  | date iso => exact (Except.ok.inj h).symm
  | arr l => exact (Except.ok.inj h).symm
  | obj kvs => exact (Except.ok.inj h).symm

theorem refDocKeysList_mem : ∀ (its : List JValue) (ks : List String) (x : JValue)
    (key : String), x ∈ its → refDocKeysList its = .ok ks →
    key ∈ refFieldKeys (jsEntries x) → key ∈ ks
  | it :: its, ks, x, key, hx, hok, hkey => by
    rw [refDocKeysList] at hok
    obtain ⟨es, h1, hok2⟩ := exceptBind_ok hok
    obtain ⟨rest, h2, hok3⟩ := exceptBind_ok hok2
    have hks : refFieldKeys es ++ rest = ks := Except.ok.inj hok3
    subst hks
    rcases List.mem_cons.mp hx with heq | htl
    · subst heq
      rw [jsEntriesOpt_some_ok h1]
      exact List.mem_append_left _ hkey
    · exact List.mem_append_right _ (refDocKeysList_mem its rest x key htl h2 hkey)

theorem mem_emittedKeys : ∀ (m : CollMap) (ks : List String) (x : JValue) (key : String),
    collMem m x → emittedKeysOfColl m = .ok ks →
    key ∈ refFieldKeys (jsEntries x) → key ∈ ks
  | [], ks, x, key, hm, _, _ => by
    obtain ⟨q, hq, _⟩ := hm
    exact absurd hq (List.not_mem_nil q)
  | p :: m, ks, x, key, hm, hok, hkey => by
    rw [emittedKeysOfColl] at hok
    obtain ⟨ksp, h1, hok2⟩ := exceptBind_ok hok
    obtain ⟨rest, h2, hok3⟩ := exceptBind_ok hok2
    have hks : ksp ++ rest = ks := Except.ok.inj hok3
    subst hks
    obtain ⟨q, hq, hx⟩ := hm
    rcases List.mem_cons.mp hq with heq | htl
    · subst heq
      exact List.mem_append_left _ (refDocKeysList_mem q.2 ksp x key hx h1 hkey)
    · exact List.mem_append_right _ (mem_emittedKeys m rest x key ⟨q, htl, hx⟩ h2 hkey)

theorem refFieldKeys_cover {es : List (String × JValue)} {k key : String} {v : JValue}
    (hin : (k, v) ∈ es) (hflag : isNonEmptyObjVal v = false)
    (hkey : key = k ∨ key ∈ reachableKeys v) : key ∈ refFieldKeys es := by
  refine List.mem_flatMap.mpr ⟨(k, v), hin, ?_⟩
  simp only [hflag]
  rcases hkey with h | h
  · simp [h]
  · simp [h]

theorem refFieldKeys_ref {es : List (String × JValue)} {k : String} {v : JValue}
    (hin : (k, v) ∈ es) (hflag : isNonEmptyObjVal v = true) :
    k ++ "Ref" ∈ refFieldKeys es := by
  refine List.mem_flatMap.mpr ⟨(k, v), hin, ?_⟩
  simp [hflag]

theorem reachableKeysFields_to_entries :
    ∀ (kvs : List (String × JValue)) (key : String), key ∈ reachableKeysFields kvs →
      ∃ kv ∈ kvs, key = kv.1 ∨ key ∈ reachableKeys kv.2
  | (k, v) :: kvs, key, hin => by
    rw [reachableKeysFields] at hin
    rcases List.mem_cons.mp hin with heq | htl
    · exact ⟨(k, v), List.mem_cons_self _ _, Or.inl heq⟩
    · rcases List.mem_append.mp htl with hv | hrest
      · exact ⟨(k, v), List.mem_cons_self _ _, Or.inr hv⟩
      · obtain ⟨kv, hkv, hor⟩ := reachableKeysFields_to_entries kvs key hrest
        exact ⟨kv, List.mem_cons_of_mem _ hkv, hor⟩

theorem reachableKeysList_to_mem :
    ∀ (l : List JValue) (key : String), key ∈ reachableKeysList l →
      ∃ v ∈ l, key ∈ reachableKeys v
  | v :: vs, key, hin => by
    rw [reachableKeysList] at hin
    rcases List.mem_append.mp hin with hv | htl
    · exact ⟨v, List.mem_cons_self _ _, hv⟩
    · obtain ⟨w, hw, hk⟩ := reachableKeysList_to_mem vs key htl
      exact ⟨w, List.mem_cons_of_mem _ hw, hk⟩

theorem indexedFrom_mem_of_mem : ∀ (i : Nat) (l : List JValue) (v : JValue),
    v ∈ l → ∃ kv ∈ indexedFrom i l, kv.2 = v
  | i, v0 :: vs, v, hin => by
    rw [indexedFrom]
    rcases List.mem_cons.mp hin with heq | htl
    · exact ⟨(toString i, v0), List.mem_cons_self _ _, heq.symm⟩
    · obtain ⟨kv, hkv, hv⟩ := indexedFrom_mem_of_mem (i + 1) vs v htl
      exact ⟨kv, List.mem_cons_of_mem _ hkv, hv⟩

theorem reachable_to_entries (d : JValue) (key : String) (hin : key ∈ reachableKeys d) :
    ∃ kv ∈ jsEntries d, key = kv.1 ∨ key ∈ reachableKeys kv.2 := by
  match d with
  | .obj kvs => exact reachableKeysFields_to_entries kvs key (by simpa [reachableKeys] using hin)
  | .arr l =>
    obtain ⟨v, hv, hk⟩ := reachableKeysList_to_mem l key (by simpa [reachableKeys] using hin)
    obtain ⟨kv, hkv, h2⟩ := indexedFrom_mem_of_mem 0 l v hv
    exact ⟨kv, by simpa [jsEntries] using hkv, Or.inr (h2 ▸ hk)⟩
  | .null => simp [reachableKeys] at hin
  | .bool _ => simp [reachableKeys] at hin
  | .num _ => simp [reachableKeys] at hin
  | .str _ => simp [reachableKeys] at hin
  | .date _ => simp [reachableKeys] at hin

theorem reachable_root_to_doc (root : JValue) (key : String)
    (hin : key ∈ reachableKeys root) :
    ∃ d ∈ toDataArray root, key ∈ reachableKeys d := by
  match root with
  | .arr l =>
    obtain ⟨v, hv, hk⟩ := reachableKeysList_to_mem l key (by simpa [reachableKeys] using hin)
    exact ⟨v, by simpa [toDataArray] using hv, hk⟩
  | .obj kvs => exact ⟨.obj kvs, by simp [toDataArray], hin⟩
  | .null => simp [reachableKeys] at hin
  | .bool _ => simp [reachableKeys] at hin
  | .num _ => simp [reachableKeys] at hin
  | .str _ => simp [reachableKeys] at hin
  | .date _ => simp [reachableKeys] at hin

/-- C4 (amended): for the Mongo-like emitter under the References policy,
when no non-empty-object field of an input document itself contains a
non-empty-object field (extraction recurses into arrays of objects but not
into object-in-object nesting; the counterexample `c4_nested_field_dropped`
shows a second object level is forced to be excluded), and the emission walk
completes — `Mongo.referencedEmittedKeys` returns `.ok ks` rather than the
`TypeError` the source raises on a `null` item, which prints nothing — every
field name reachable in the input appears among the printed fields `ks`,
either as itself or as its synthesized `…Ref` reference field. -/
theorem c4_reference_extraction (root : JValue) (cn : String)
    (H : ∀ d ∈ toDataArray root, ∀ kv ∈ jsEntries d, isNonEmptyObjVal kv.2 = true →
      ∀ kv2 ∈ jsEntries kv.2, isNonEmptyObjVal kv2.2 = false) :
    ∀ key ∈ reachableKeys root, ∀ ks : List String,
      Mongo.referencedEmittedKeys root cn = .ok ks →
      key ∈ ks ∨ key ++ "Ref" ∈ ks := by
  intro key hkey ks hks
  have hks' : emittedKeysOfColl (Mongo.extractReferencedCollections (toDataArray root)
      [(cn, toDataArray root)]) = .ok ks := hks
  obtain ⟨d, hd, hkd⟩ := reachable_root_to_doc root key hkey
  have hM : collMem (Mongo.extractReferencedCollections (toDataArray root)
      [(cn, toDataArray root)]) d :=
    extractItems_mono _ _ d (toDataArray root) _ ⟨(cn, toDataArray root), by simp, hd⟩
  obtain ⟨⟨k, v⟩, hin, hor⟩ := reachable_to_entries d key hkd
  by_cases hflag : isNonEmptyObjVal v = true
  · rcases hor with heq | hreach
    · right
      subst heq
      exact mem_emittedKeys _ ks d _ hM hks' (refFieldKeys_ref hin hflag)
    · left
      have hv : collMem (Mongo.extractReferencedCollections (toDataArray root)
          [(cn, toDataArray root)]) v :=
        extractItems_pushes _ _ (toDataArray root) _ d k v hd hin hflag
      obtain ⟨⟨k2, v2⟩, hin2, hor2⟩ := reachable_to_entries v key hreach
      have hflag2 : isNonEmptyObjVal v2 = false := H d hd (k, v) hin hflag (k2, v2) hin2
      exact mem_emittedKeys _ ks v key hv hks' (refFieldKeys_cover hin2 hflag2 hor2)
  · left
    exact mem_emittedKeys _ ks d key hM hks'
      (refFieldKeys_cover hin (Bool.not_eq_true _ ▸ hflag) hor)

/-- C4 (counterexample): in `{a: {b: {c: 1}}}` the field `c` is reachable in
the input, yet under the References policy the emission walk completes and
prints exactly the fields `aRef` and `bRef` — `c` appears in no emitted
document, neither as `c` nor as `cRef`: extraction does not recurse into an
extracted object's own object fields, so a second object level loses its
fields. -/
theorem c4_nested_field_dropped :
    "c" ∈ reachableKeys (.obj [("a", .obj [("b", .obj [("c", .num "1")])])]) ∧
    Mongo.referencedEmittedKeys
      (.obj [("a", .obj [("b", .obj [("c", .num "1")])])]) "a" = .ok ["aRef", "bRef"] ∧
    "c" ∉ ["aRef", "bRef"] ∧ "cRef" ∉ ["aRef", "bRef"] := by
  exact ⟨by decide, rfl, by decide, by decide⟩

/-- C4 (witness): the amended theorem applied to the one-level-nested
document `{name: "Ada", address: {city: "London"}}`, whose emission walk
completes with the printed fields `["name", "addressRef", "city"]`, and the
reachable key `city`. -/
theorem c4_reference_extraction_witness :
    "city" ∈ ["name", "addressRef", "city"] ∨
    "city" ++ "Ref" ∈ ["name", "addressRef", "city"] :=
  c4_reference_extraction
    (.obj [("name", .str "Ada"), ("address", .obj [("city", .str "London")])]) "users"
    (by decide) "city" (by decide) ["name", "addressRef", "city"] (by rfl)

theorem mongo_valueList_map : ∀ l, Mongo.mongoValueList l = l.map Mongo.mongoValueToString
  | [] => rfl
  | v :: vs => by rw [Mongo.mongoValueList, mongo_valueList_map vs, List.map_cons]

theorem mongo_fieldList_map : ∀ kvs, Mongo.mongoFieldList kvs =
    kvs.map (fun kv => kv.1 ++ ": " ++ Mongo.mongoValueToString kv.2)
  | [] => rfl
  | (k, v) :: kvs => by rw [Mongo.mongoFieldList, mongo_fieldList_map kvs, List.map_cons]

theorem firebase_valueList_map : ∀ l,
    Firebase.firebaseValueList l = l.map Firebase.firebaseValueToString
  | [] => rfl
  | v :: vs => by rw [Firebase.firebaseValueList, firebase_valueList_map vs, List.map_cons]

theorem firebase_fieldList_map : ∀ kvs, Firebase.firebaseFieldList kvs =
    kvs.map (fun kv => kv.1 ++ ": " ++ Firebase.firebaseValueToString kv.2)
  | [] => rfl
  | (k, v) :: kvs => by rw [Firebase.firebaseFieldList, firebase_fieldList_map kvs, List.map_cons]

theorem dynamo_valueList_map : ∀ l,
    Dynamo.dynamoValueList l = l.map Dynamo.dynamoValueToString
  | [] => rfl
  | v :: vs => by rw [Dynamo.dynamoValueList, dynamo_valueList_map vs, List.map_cons]

theorem dynamo_fieldList_map : ∀ kvs, Dynamo.dynamoFieldList kvs =
    kvs.map (fun kv => kv.1 ++ ": " ++ Dynamo.dynamoValueToString kv.2)
  | [] => rfl
  | (k, v) :: kvs => by rw [Dynamo.dynamoFieldList, dynamo_fieldList_map kvs, List.map_cons]

theorem couch_valueList_map : ∀ l,
    Couch.couchValueList l = l.map Couch.couchValueToString
  | [] => rfl
  | v :: vs => by rw [Couch.couchValueList, couch_valueList_map vs, List.map_cons]

theorem couch_fieldList_map : ∀ kvs, Couch.couchFieldList kvs =
    kvs.map (fun kv => kv.1 ++ ": " ++ Couch.couchValueToString kv.2)
  | [] => rfl
  | (k, v) :: kvs => by rw [Couch.couchFieldList, couch_fieldList_map kvs, List.map_cons]

/-- C1 (amended): for all four backend value serializers, `null` gives the
null literal, strings are double-quoted with internal double quotes escaped,
numbers and booleans are verbatim, arrays are the comma-joined bracketed list
of recursively serialized elements and objects the comma-joined braced list
of `key: value` pairs — but only the Mongo-like (`ISODate("…")`) and
Firebase-like (`new Date("…")`) serializers use a date-constructor literal:
the DynamoDB-like and CouchDB-like serializers render a date as a bare
quoted ISO string. -/
theorem c1_value_serializer_rules :
    (Mongo.mongoValueToString .null = "null" ∧
      (∀ b, Mongo.mongoValueToString (.bool b) = (if b then "true" else "false")) ∧
      (∀ n, Mongo.mongoValueToString (.num n) = n) ∧
      (∀ s, Mongo.mongoValueToString (.str s) = "\"" ++ escapeDoubleQuotes s ++ "\"") ∧
      (∀ l, Mongo.mongoValueToString (.arr l) =
        "[" ++ String.intercalate ", " (l.map Mongo.mongoValueToString) ++ "]") ∧
      (∀ kvs, Mongo.mongoValueToString (.obj kvs) =
        "\x7b " ++ String.intercalate ", "
          (kvs.map (fun kv => kv.1 ++ ": " ++ Mongo.mongoValueToString kv.2)) ++ " \x7d") ∧
      (∀ iso, Mongo.mongoValueToString (.date iso) = "ISODate(\"" ++ iso ++ "\")")) ∧
    (Firebase.firebaseValueToString .null = "null" ∧
      (∀ b, Firebase.firebaseValueToString (.bool b) = (if b then "true" else "false")) ∧
      (∀ n, Firebase.firebaseValueToString (.num n) = n) ∧
      (∀ s, Firebase.firebaseValueToString (.str s) = "\"" ++ escapeDoubleQuotes s ++ "\"") ∧
      (∀ l, Firebase.firebaseValueToString (.arr l) =
        "[" ++ String.intercalate ", " (l.map Firebase.firebaseValueToString) ++ "]") ∧
      (∀ kvs, Firebase.firebaseValueToString (.obj kvs) =
        "\x7b " ++ String.intercalate ", "
          (kvs.map (fun kv => kv.1 ++ ": " ++ Firebase.firebaseValueToString kv.2)) ++ " \x7d") ∧
      (∀ iso, Firebase.firebaseValueToString (.date iso) = "new Date(\"" ++ iso ++ "\")")) ∧
    (Dynamo.dynamoValueToString .null = "null" ∧
      (∀ b, Dynamo.dynamoValueToString (.bool b) = (if b then "true" else "false")) ∧
      (∀ n, Dynamo.dynamoValueToString (.num n) = n) ∧
      (∀ s, Dynamo.dynamoValueToString (.str s) = "\"" ++ escapeDoubleQuotes s ++ "\"") ∧
      (∀ l, Dynamo.dynamoValueToString (.arr l) =
        "[" ++ String.intercalate ", " (l.map Dynamo.dynamoValueToString) ++ "]") ∧
      (∀ kvs, Dynamo.dynamoValueToString (.obj kvs) =
        "\x7b " ++ String.intercalate ", "
          (kvs.map (fun kv => kv.1 ++ ": " ++ Dynamo.dynamoValueToString kv.2)) ++ " \x7d") ∧
      (∀ iso, Dynamo.dynamoValueToString (.date iso) = "\"" ++ iso ++ "\"")) ∧
    (Couch.couchValueToString .null = "null" ∧
      (∀ b, Couch.couchValueToString (.bool b) = (if b then "true" else "false")) ∧
      (∀ n, Couch.couchValueToString (.num n) = n) ∧
      (∀ s, Couch.couchValueToString (.str s) = "\"" ++ escapeDoubleQuotes s ++ "\"") ∧
      (∀ l, Couch.couchValueToString (.arr l) =
        "[" ++ String.intercalate ", " (l.map Couch.couchValueToString) ++ "]") ∧
      (∀ kvs, Couch.couchValueToString (.obj kvs) =
        "\x7b " ++ String.intercalate ", "
          (kvs.map (fun kv => kv.1 ++ ": " ++ Couch.couchValueToString kv.2)) ++ " \x7d") ∧
      (∀ iso, Couch.couchValueToString (.date iso) = "\"" ++ iso ++ "\"")) := by
  refine ⟨⟨rfl, fun b => rfl, fun n => rfl, fun s => rfl, fun l => ?_, fun kvs => ?_, fun iso => rfl⟩,
    ⟨rfl, fun b => rfl, fun n => rfl, fun s => rfl, fun l => ?_, fun kvs => ?_, fun iso => rfl⟩,
    ⟨rfl, fun b => rfl, fun n => rfl, fun s => rfl, fun l => ?_, fun kvs => ?_, fun iso => rfl⟩,
    ⟨rfl, fun b => rfl, fun n => rfl, fun s => rfl, fun l => ?_, fun kvs => ?_, fun iso => rfl⟩⟩
  · rw [Mongo.mongoValueToString, mongo_valueList_map]
  · rw [Mongo.mongoValueToString, mongo_fieldList_map]
  · rw [Firebase.firebaseValueToString, firebase_valueList_map]
  · rw [Firebase.firebaseValueToString, firebase_fieldList_map]
  · rw [Dynamo.dynamoValueToString, dynamo_valueList_map]
  · rw [Dynamo.dynamoValueToString, dynamo_fieldList_map]
  · rw [Couch.couchValueToString, couch_valueList_map]
  · rw [Couch.couchValueToString, couch_fieldList_map]

/-- C1 (counterexample): the DynamoDB-like and CouchDB-like serializers
render a recognized date exactly as they render the bare ISO string — a
plain quoted string, not a date/timestamp-constructor literal. -/
theorem c1_date_bare_string_counterexample :
    Dynamo.dynamoValueToString (.date "2024-06-01T12:00:00.000Z") =
      "\"2024-06-01T12:00:00.000Z\"" ∧
    Dynamo.dynamoValueToString (.date "2024-06-01T12:00:00.000Z") =
      Dynamo.dynamoValueToString (.str "2024-06-01T12:00:00.000Z") ∧
    Couch.couchValueToString (.date "2024-06-01T12:00:00.000Z") =
      "\"2024-06-01T12:00:00.000Z\"" ∧
    Couch.couchValueToString (.date "2024-06-01T12:00:00.000Z") =
      Couch.couchValueToString (.str "2024-06-01T12:00:00.000Z") := by
  refine ⟨?_, ?_, ?_, ?_⟩ <;> decide

/-- C6: on the sample document `{user_id: 1, email: "a@b.com",
created_at: "2024-01-01", notes: "free text"}` (as the first element of an
array input), the shared candidate scan of all four backend advisors returns
exactly `["user_id", "email", "created_at"]` in field order, without
`notes`, and each backend's rendered suggestion block mentions the three
candidates and never `notes`. -/
theorem c6_index_advisor_sample :
    indexCandidatesOf (.arr [.obj [("user_id", .num "1"), ("email", .str "a@b.com"),
      ("created_at", .str "2024-01-01"), ("notes", .str "free text")]]) =
      ["user_id", "email", "created_at"] ∧
    "notes" ∉ indexCandidatesOf (.arr [.obj [("user_id", .num "1"), ("email", .str "a@b.com"),
      ("created_at", .str "2024-01-01"), ("notes", .str "free text")]]) ∧
    (strContains (Mongo.generateIndexSuggestions (.arr [.obj [("user_id", .num "1"),
        ("email", .str "a@b.com"), ("created_at", .str "2024-01-01"),
        ("notes", .str "free text")]]) "users") "user_id" = true ∧
      strContains (Mongo.generateIndexSuggestions (.arr [.obj [("user_id", .num "1"),
        ("email", .str "a@b.com"), ("created_at", .str "2024-01-01"),
        ("notes", .str "free text")]]) "users") "notes" = false) ∧
    (strContains (Firebase.generateIndexSuggestions (.arr [.obj [("user_id", .num "1"),
        ("email", .str "a@b.com"), ("created_at", .str "2024-01-01"),
        ("notes", .str "free text")]]) "users") "created_at" = true ∧
      strContains (Firebase.generateIndexSuggestions (.arr [.obj [("user_id", .num "1"),
        ("email", .str "a@b.com"), ("created_at", .str "2024-01-01"),
        ("notes", .str "free text")]]) "users") "notes" = false) ∧
    (strContains (Dynamo.generateIndexSuggestions (.arr [.obj [("user_id", .num "1"),
        ("email", .str "a@b.com"), ("created_at", .str "2024-01-01"),
        ("notes", .str "free text")]]) "users") "email" = true ∧
      strContains (Dynamo.generateIndexSuggestions (.arr [.obj [("user_id", .num "1"),
        ("email", .str "a@b.com"), ("created_at", .str "2024-01-01"),
        ("notes", .str "free text")]]) "users") "notes" = false) ∧
    (strContains (Couch.generateIndexSuggestions (.arr [.obj [("user_id", .num "1"),
        ("email", .str "a@b.com"), ("created_at", .str "2024-01-01"),
        ("notes", .str "free text")]])) "user_id" = true ∧
      strContains (Couch.generateIndexSuggestions (.arr [.obj [("user_id", .num "1"),
        ("email", .str "a@b.com"), ("created_at", .str "2024-01-01"),
        ("notes", .str "free text")]])) "notes" = false) := by
  refine ⟨?_, ?_, ⟨?_, ?_⟩, ⟨?_, ?_⟩, ⟨?_, ?_⟩, ⟨?_, ?_⟩⟩ <;> decide

/-- C7 (counterexample): a field named `id` whose string value matches the
leading `YYYY-MM-DD` pattern satisfies both the id heuristic and the date
heuristic and is pushed twice — the advisor's candidate sequence is not
de-duplicated. -/
theorem c7_duplicate_candidates_counterexample :
    indexCandidatesOf (.arr [.obj [("id", .str "2024-01-01")]]) = ["id", "id"] ∧
    (indexCandidatesOf (.arr [.obj [("id", .str "2024-01-01")]])).count "id" = 2 := by
  refine ⟨?_, ?_⟩ <;> decide

/-- C7 (amended): the candidate scan pushes a field's name once per satisfied
heuristic, so a name occurs at most three times per occurrence among the
sample's fields — duplicates appear exactly when a field satisfies more than
one heuristic, and no de-duplication is performed. -/
theorem c7_candidate_multiplicity : ∀ (es : List (String × JValue)) (k : String),
    (indexCandidateScan es).count k ≤ 3 * ((es.map Prod.fst).count k)
  | [], k => by simp [indexCandidateScan]
  | (k0, v0) :: es, k => by
    have ih := c7_candidate_multiplicity es k
    have hblock : ∀ (c : Bool), ((if c then [k0] else []).count k) ≤ (if k0 = k then 1 else 0) := by
      intro c
      cases c with
      | false => simp
      | true =>
        by_cases h : k0 = k
        · simp [h]
        · simp [List.count_cons, h]
    have h1 := hblock (strContains (jsToLower k0) "id" || strEndsWith (jsToLower k0) "_id")
    have h2 := hblock ((match v0 with | .str s => matchesLeadingDate s | _ => false) ||
        (match v0 with | .date _ => true | _ => false) ||
        strContains (jsToLower k0) "date" || strContains (jsToLower k0) "time")
    have h3 := hblock (strContains (jsToLower k0) "name" || strContains (jsToLower k0) "email" ||
        strContains (jsToLower k0) "username")
    simp only [indexCandidateScan, List.flatMap_cons, List.count_append, List.map_cons,
      List.count_cons] at *
    by_cases h : k0 = k
    · simp only [h, if_pos rfl, beq_self_eq_true, if_true] at *
      omega
    · have : (k0 == k) = false := beq_eq_false_iff_ne.mpr h
      simp only [h, if_false, this] at *
      omega

/-- C8: generating from the empty array with the CouchDB-like backend under
the nested (also the default) or flat structure evaluates
`Object.entries(dataArray[0])` with `dataArray[0]` being `undefined` and
raises a `TypeError` instead of returning code, while the empty object works
for CouchDB and the empty array works for the other three backends and for
CouchDB's other structures. -/
theorem c8_couch_empty_array_type_error :
    Couch.generateCouchDBDocuments testEnv (.arr []) "nested" {} =
      .error "TypeError: Cannot convert undefined or null to object" ∧
    Couch.generateCouchDBDocuments testEnv (.arr []) "flat" {} =
      .error "TypeError: Cannot convert undefined or null to object" ∧
    generateNoSQL testEnv (.arr []) "couchdb" "nested" {} =
      .error "TypeError: Cannot convert undefined or null to object" ∧
    (Couch.generateCouchDBDocuments testEnv (.obj []) "nested" {}).isOk = true ∧
    (Couch.generateCouchDBDocuments testEnv (.obj []) "flat" {}).isOk = true ∧
    (Couch.generateCouchDBDocuments testEnv (.arr []) "references" {}).isOk = true ∧
    (Couch.generateCouchDBDocuments testEnv (.arr []) "arrays" {}).isOk = true ∧
    (Mongo.generateMongoDBDocuments testEnv (.arr []) "nested" {}).isOk = true ∧
    (Firebase.generateFirebaseDocuments testEnv (.arr []) "nested" {}).isOk = true ∧
    (Dynamo.generateDynamoDBDocuments testEnv (.arr []) "nested" {}).isOk = true ∧
    Mongo.generateMongoDBDocuments testEnv (.obj []) "nested" {} =
      .ok ("// MongoDB Shell Commands\n// Run these commands in MongoDB shell or MongoDB Compass\n\n" ++
        "use nosql_generator_db;\n\n" ++
        "// Nested document structure\n" ++
        "db.collection.insertMany([\n  \x7b\n  \x7d\n]);\n\n") := by
  refine ⟨rfl, rfl, rfl, ?_, ?_, ?_, ?_, ?_, ?_, ?_, rfl⟩ <;> decide

/-- C2 (counterexample): generating from the bare scalar `42` with the
Mongo-like backend returns a generated code string — no `InvalidInputError`
(or any error) is raised for a truthy scalar root. -/
theorem c2_scalar_root_not_rejected :
    (generateNoSQL testEnv (.num "42") "mongodb" "nested" {}).isOk = true ∧
    generateNoSQL testEnv (.num "42") "mongodb" "nested" {} =
      .ok ("// MongoDB Shell Commands\n// Run these commands in MongoDB shell or MongoDB Compass\n\n" ++
        "use nosql_generator_db;\n\n" ++
        "// Nested document structure\n" ++
        "db.collection.insertMany([\n  \x7b\n  \x7d\n]);\n\n") := by
  exact ⟨by decide, rfl⟩

/-- C2 (amended): no backend rejects a bare scalar root.  The dispatcher
rejects only falsy roots (`null`, `false`, `0`, the empty string) with a
generic error; the truthy scalars `42` and `"hello"` flow through every
backend and every structure policy of the Mongo-like backend and yield a
generated code string — `42` as a zero-field document, `"hello"` as its
index/character entries. -/
theorem c2_scalar_root_behavior :
    (generateNoSQL testEnv (.num "42") "mongodb" "nested" {}).isOk = true ∧
    (generateNoSQL testEnv (.num "42") "firebase" "nested" {}).isOk = true ∧
    (generateNoSQL testEnv (.num "42") "dynamodb" "nested" {}).isOk = true ∧
    (generateNoSQL testEnv (.num "42") "couchdb" "nested" {}).isOk = true ∧
    (generateNoSQL testEnv (.str "hello") "mongodb" "nested" {}).isOk = true ∧
    (generateNoSQL testEnv (.str "hello") "firebase" "nested" {}).isOk = true ∧
    (generateNoSQL testEnv (.str "hello") "dynamodb" "nested" {}).isOk = true ∧
    (generateNoSQL testEnv (.str "hello") "couchdb" "nested" {}).isOk = true ∧
    (generateNoSQL testEnv (.num "42") "mongodb" "flat" {}).isOk = true ∧
    (generateNoSQL testEnv (.num "42") "mongodb" "references" {}).isOk = true ∧
    (generateNoSQL testEnv (.num "42") "mongodb" "arrays" {}).isOk = true ∧
    okContains (generateNoSQL testEnv (.str "hello") "mongodb" "nested" {}) "0: \"h\"" = true ∧
    generateNoSQL testEnv .null "mongodb" "nested" {} = .error "No JSON data provided" ∧
    generateNoSQL testEnv (.str "") "mongodb" "nested" {} = .error "No JSON data provided" ∧
    generateNoSQL testEnv (.num "42") "" "nested" {} = .error "No database type selected" := by
  refine ⟨?_, ?_, ?_, ?_, ?_, ?_, ?_, ?_, ?_, ?_, ?_, ?_, rfl, rfl, rfl⟩ <;> decide

/-- C9 (amended): for a single extracted field named `k`, the four backends
name the extracted group as follows.  Mongo-like and Firebase-like: keep `k`
if it ends in `s`, else append `s` (both for an object field and for an
array-of-objects field).  DynamoDB-like: the capitalized key for an object
field, and the capitalized key with a trailing `s` dropped for an
array-of-objects field (a key already ending in `s` is therefore not kept
unchanged — it is capitalized and, in the array branch, singularized).
CouchDB-like: the key itself, uncapitalized, for an object field, and the
key with a trailing `s` dropped for an array-of-objects field. -/
theorem c9_collection_naming (k : String) :
    (Mongo.extractReferencedCollections [.obj [(k, .obj [("x", .num "1")])]] []).map Prod.fst =
      [if strEndsWith k "s" then k else k ++ "s"] ∧
    (Firebase.extractReferencedCollections [.obj [(k, .obj [("x", .num "1")])]] []).map Prod.fst =
      [if strEndsWith k "s" then k else k ++ "s"] ∧
    (Dynamo.extractEntities [.obj [(k, .obj [("x", .num "1")])]] []).map Prod.fst =
      [jsCapitalize k] ∧
    (Couch.extractReferencedDocTypes [.obj [(k, .obj [("x", .num "1")])]] []).map Prod.fst =
      [k] ∧
    (Mongo.extractReferencedCollections
        [.obj [(k, .arr [.obj [("x", .num "1")]])]] []).map Prod.fst =
      [if strEndsWith k "s" then k else k ++ "s"] ∧
    (Firebase.extractReferencedCollections
        [.obj [(k, .arr [.obj [("x", .num "1")]])]] []).map Prod.fst =
      [if strEndsWith k "s" then k else k ++ "s"] ∧
    (Dynamo.extractEntities [.obj [(k, .arr [.obj [("x", .num "1")]])]] []).map Prod.fst =
      [if strEndsWith (jsCapitalize k) "s" then strDropLast (jsCapitalize k)
       else jsCapitalize k] ∧
    (Couch.extractReferencedDocTypes
        [.obj [(k, .arr [.obj [("x", .num "1")]])]] []).map Prod.fst =
      [if strEndsWith k "s" then strDropLast k else k] := by
  refine ⟨?_, ?_, ?_, ?_, ?_, ?_, ?_, ?_⟩ <;>
    simp [Mongo.extractReferencedCollections, Firebase.extractReferencedCollections,
      Dynamo.extractEntities, Couch.extractReferencedDocTypes,
      extractItems, extractItem, extractEntries, extractArrEntries, extractValue,
      isNonEmptyObjVal, isObjectTypeNonNull, pushItems,
      Mongo.pluralCollName, Firebase.pluralCollName, Dynamo.entityTypeName,
      Dynamo.singularEntityName, Couch.objDocTypeName, Couch.singularDocTypeName]

/-- C9 (counterexample): the plural-looking key `orders` over an array of
objects is not kept unchanged by the CouchDB-like backend: the extracted
group is named `order` (singularized, not capitalized), and the capitalized
`Orders` does not appear either; and the DynamoDB-like backend renames the
`s`-ending key `corpus` to `Corpus` rather than keeping it. -/
theorem c9_naming_counterexample :
    (Couch.extractReferencedDocTypes [.obj [("orders", .arr [.obj [("x", .num "1")]])]]
      [("main", [.obj [("orders", .arr [.obj [("x", .num "1")]])]])]).map Prod.fst =
      ["main", "order"] ∧
    "orders" ∉ (Couch.extractReferencedDocTypes [.obj [("orders", .arr [.obj [("x", .num "1")]])]]
      [("main", [.obj [("orders", .arr [.obj [("x", .num "1")]])]])]).map Prod.fst ∧
    "Orders" ∉ (Couch.extractReferencedDocTypes [.obj [("orders", .arr [.obj [("x", .num "1")]])]]
      [("main", [.obj [("orders", .arr [.obj [("x", .num "1")]])]])]).map Prod.fst ∧
    (Dynamo.extractEntities [.obj [("corpus", .obj [("x", .num "1")])]] []).map Prod.fst =
      ["Corpus"] := by
  refine ⟨?_, ?_, ?_, ?_⟩ <;> decide

/-- C10 (counterexample): with the explicit option `dbName = "mydb"` and the
root object `{users: {x: 1}}`, the Firebase-like emitter still targets the
collection `users` (the first key) and the string `mydb` appears nowhere in
its output; the DynamoDB-like emitter likewise targets the table `users`;
and the CouchDB-like emitter without an option uses the generic fallback
database name even though a first key is available. -/
theorem c10_explicit_option_ignored :
    okContains (Firebase.generateFirebaseDocuments testEnv
      (.obj [("users", .obj [("x", .num "1")])]) "nested" { dbName := some "mydb" })
      "collection(db, \"users\")" = true ∧
    okContains (Firebase.generateFirebaseDocuments testEnv
      (.obj [("users", .obj [("x", .num "1")])]) "nested" { dbName := some "mydb" })
      "mydb" = false ∧
    (Firebase.generateFirebaseDocuments testEnv
      (.obj [("users", .obj [("x", .num "1")])]) "nested" { dbName := some "mydb" }).isOk = true ∧
    okContains (Dynamo.generateDynamoDBDocuments testEnv
      (.obj [("users", .obj [("x", .num "1")])]) "nested" { dbName := some "mydb" })
      "\"users\": items" = true ∧
    okContains (Dynamo.generateDynamoDBDocuments testEnv
      (.obj [("users", .obj [("x", .num "1")])]) "nested" { dbName := some "mydb" })
      "mydb" = false ∧
    okContains (Couch.generateCouchDBDocuments testEnv
      (.obj [("users", .obj [("x", .num "1")])]) "nested" {})
      "nano.db.create(\"nosql_generator_db\")" = true ∧
    okContains (Couch.generateCouchDBDocuments testEnv
      (.obj [("users", .obj [("x", .num "1")])]) "nested" {})
      "nano.db.create(\"users\")" = false := by
  refine ⟨?_, ?_, ?_, ?_, ?_, ?_, ?_⟩ <;> decide

/-- C10 (amended): the actual name resolution.  Firebase-like and
DynamoDB-like outputs are entirely independent of the `dbName` option; their
target collection/table comes from the first-key rule alone (`items`/`Items`
for an array root, first key of a non-empty object root, generic fallback
for `{}`).  The Mongo-like emitter also resolves its collection by the
first-key rule, using `dbName` only for the separate `use …;` line (option,
else generic fallback).  The CouchDB-like emitter resolves its database name
as option-else-fallback and never consults the first key. -/
theorem c10_name_resolution :
    (∀ (env : JsEnv) (data : JValue) (structType : String) (opts : GenOptions),
      Firebase.generateFirebaseDocuments env data structType { opts with dbName := none } =
        Firebase.generateFirebaseDocuments env data structType opts) ∧
    (∀ (env : JsEnv) (data : JValue) (structType : String) (opts : GenOptions),
      Dynamo.generateDynamoDBDocuments env data structType { opts with dbName := none } =
        Dynamo.generateDynamoDBDocuments env data structType opts) ∧
    okContains (Mongo.generateMongoDBDocuments testEnv
      (.obj [("users", .obj [("x", .num "1")])]) "nested" { dbName := some "mydb" })
      "db.users.insertMany" = true ∧
    okContains (Mongo.generateMongoDBDocuments testEnv
      (.obj [("users", .obj [("x", .num "1")])]) "nested" { dbName := some "mydb" })
      "use mydb;" = true ∧
    okContains (Mongo.generateMongoDBDocuments testEnv
      (.obj [("users", .obj [("x", .num "1")])]) "nested" {})
      "use nosql_generator_db;" = true ∧
    okContains (Mongo.generateMongoDBDocuments testEnv (.obj []) "nested" {})
      "db.collection.insertMany" = true ∧
    okContains (Mongo.generateMongoDBDocuments testEnv (.arr [.obj []]) "nested" {})
      "db.items.insertMany" = true ∧
    okContains (Firebase.generateFirebaseDocuments testEnv (.obj []) "nested" {})
      "collection(db, \"collection\")" = true ∧
    okContains (Firebase.generateFirebaseDocuments testEnv (.arr [.obj []]) "nested" {})
      "collection(db, \"items\")" = true ∧
    okContains (Dynamo.generateDynamoDBDocuments testEnv (.obj []) "nested" {})
      "\"DynamoTable\": items" = true ∧
    okContains (Dynamo.generateDynamoDBDocuments testEnv (.arr [.obj []]) "nested" {})
      "\"Items\": items" = true ∧
    okContains (Couch.generateCouchDBDocuments testEnv (.obj []) "nested"
      { dbName := some "mydb" }) "nano.db.create(\"mydb\")" = true := by
  refine ⟨?_, ?_, ?_, ?_, ?_, ?_, ?_, ?_, ?_, ?_, ?_, ?_⟩
  · intro env data structType opts
    cases opts
    rfl
  · intro env data structType opts
    cases opts
    rfl
  all_goals decide

mutual
/-- Whether no field value reachable through object nesting is a `Date`
(dates in object-field position vanish under the source's flatten, see
`flattenOne`; dates inside arrays are untouched leaves). -/
def valNoDateValues : JValue → Bool
  | .date _ => false
  | .obj kvs => fieldsNoDateValues kvs
  | _ => true

/-- `valNoDateValues` over object fields. -/
def fieldsNoDateValues : List (String × JValue) → Bool
  | [] => true
  | (_, v) :: rest => valNoDateValues v && fieldsNoDateValues rest
end

mutual
/-- Modelled from the spec: the `Flat` transform — "every object-valued field
recursively merged into the parent using a backend-specific key-join
convention … arrays are NOT flattened, only nested objects are" — as a plain
recursive definition over an object's fields, parameterized by the join
separator. -/
def flattenSpec (sep : String) : List (String × JValue) → String → List (String × JValue)
  | [], _ => []
  | (k, v) :: rest, pre => flattenSpecOne sep k v pre ++ flattenSpec sep rest pre

/-- One field of `flattenSpec`: objects merge recursively, everything else
(arrays included) is a leaf under the joined key. -/
def flattenSpecOne (sep k : String) (v : JValue) (pre : String) : List (String × JValue) :=
  match v with
  | .obj kvs => flattenSpec sep kvs (joinKey sep pre k)
  | _ => [(joinKey sep pre k, v)]
end

theorem jsObjSet_append {acc : List (String × JValue)} {k : String} (v : JValue)
    (h : k ∉ acc.map Prod.fst) : jsObjSet acc k v = acc ++ [(k, v)] := by
  unfold jsObjSet
  rw [if_neg]
  intro hany
  obtain ⟨p, hp, hpk⟩ := List.any_eq_true.mp hany
  exact h (of_decide_eq_true hpk ▸ List.mem_map_of_mem Prod.fst hp)

mutual
theorem flattenFields_eq (sep : String) :
    ∀ (es : List (String × JValue)) (pre : String) (acc : List (String × JValue)),
      fieldsNoDateValues es = true →
      ((acc ++ flattenSpec sep es pre).map Prod.fst).Nodup →
      flattenFields sep es pre acc = acc ++ flattenSpec sep es pre
  | [], pre, acc, _, _ => by simp [flattenFields, flattenSpec]
  | (k, v) :: rest, pre, acc, hnd, hnodup => by
    have hpair : valNoDateValues v = true ∧ fieldsNoDateValues rest = true := by
      simpa [fieldsNoDateValues, Bool.and_eq_true] using hnd
    rw [flattenFields, flattenSpec] at *
    rw [← List.append_assoc] at hnodup
    have h1 : flattenOne sep k v pre acc = acc ++ flattenSpecOne sep k v pre :=
      flattenOne_eq sep k v pre acc hpair.1 (by
        have h := hnodup
        rw [List.map_append] at h
        exact h.of_append_left)
    rw [h1, flattenFields_eq sep rest pre (acc ++ flattenSpecOne sep k v pre) hpair.2
      (by simpa using hnodup), List.append_assoc]

theorem flattenOne_eq (sep k : String) :
    ∀ (v : JValue) (pre : String) (acc : List (String × JValue)),
      valNoDateValues v = true →
      ((acc ++ flattenSpecOne sep k v pre).map Prod.fst).Nodup →
      flattenOne sep k v pre acc = acc ++ flattenSpecOne sep k v pre
  | .obj kvs, pre, acc, hv, hnodup => by
    rw [flattenOne, flattenSpecOne] at *
    exact flattenFields_eq sep kvs (joinKey sep pre k) acc
      (by simpa [valNoDateValues] using hv) hnodup
  | .null, pre, acc, _, hnodup => by
    have hmem : joinKey sep pre k ∉ acc.map Prod.fst := by
      intro hmem
      have h := List.nodup_append.mp (by simpa using hnodup)
      exact (h.2.2 hmem) (by simp [flattenSpecOne])
    simp only [flattenOne, flattenSpecOne]
    exact jsObjSet_append _ hmem
  | .bool _, pre, acc, _, hnodup => by
    have hmem : joinKey sep pre k ∉ acc.map Prod.fst := by
      intro hmem
      have h := List.nodup_append.mp (by simpa using hnodup)
      exact (h.2.2 hmem) (by simp [flattenSpecOne])
    simp only [flattenOne, flattenSpecOne]
    exact jsObjSet_append _ hmem
  | .num _, pre, acc, _, hnodup => by
    have hmem : joinKey sep pre k ∉ acc.map Prod.fst := by
      intro hmem
      have h := List.nodup_append.mp (by simpa using hnodup)
      exact (h.2.2 hmem) (by simp [flattenSpecOne])
    simp only [flattenOne, flattenSpecOne]
    exact jsObjSet_append _ hmem
  | .str _, pre, acc, _, hnodup => by
    have hmem : joinKey sep pre k ∉ acc.map Prod.fst := by
      intro hmem
      have h := List.nodup_append.mp (by simpa using hnodup)
      exact (h.2.2 hmem) (by simp [flattenSpecOne])
    simp only [flattenOne, flattenSpecOne]
    exact jsObjSet_append _ hmem
  | .arr _, pre, acc, _, hnodup => by
    have hmem : joinKey sep pre k ∉ acc.map Prod.fst := by
      intro hmem
      have h := List.nodup_append.mp (by simpa using hnodup)
      exact (h.2.2 hmem) (by simp [flattenSpecOne])
    simp only [flattenOne, flattenSpecOne]
    exact jsObjSet_append _ hmem
end

/-- C5: every backend's `flattenObject` refines the spec's Flat transform
`flattenSpec` — object fields recursively merged into the parent with the
backend's join separator (a dot for the Mongo-like backend, an underscore
for the other three), arrays never flattened — provided no object field
holds a `Date` (the source drops such fields) and the flattened keys are
pairwise distinct (the source's accumulator otherwise overwrites in place);
and concretely, the Mongo-like flat output for
`{name: "Ada", address: {city: "London"}}` contains the joined field
`address.city: "London"` and no nested `address: ` block. -/
theorem c5_flatten_matches_spec :
    (∀ (kvs : List (String × JValue)) (pre : String),
      fieldsNoDateValues kvs = true →
      ((flattenSpec "." kvs pre).map Prod.fst).Nodup →
      ((flattenSpec "_" kvs pre).map Prod.fst).Nodup →
      (Mongo.flattenObject kvs pre = flattenSpec "." kvs pre ∧
       Firebase.flattenObject kvs pre = flattenSpec "_" kvs pre ∧
       Dynamo.flattenObject kvs pre = flattenSpec "_" kvs pre ∧
       Couch.flattenObject kvs pre = flattenSpec "_" kvs pre)) ∧
    okContains (Mongo.generateMongoDBDocuments testEnv
      (.obj [("name", .str "Ada"), ("address", .obj [("city", .str "London")])]) "flat" {})
      "address.city: \"London\"" = true ∧
    okContains (Mongo.generateMongoDBDocuments testEnv
      (.obj [("name", .str "Ada"), ("address", .obj [("city", .str "London")])]) "flat" {})
      "address: " = false ∧
    (Mongo.generateMongoDBDocuments testEnv
      (.obj [("name", .str "Ada"), ("address", .obj [("city", .str "London")])])
      "flat" {}).isOk = true := by
  refine ⟨?_, by decide, by decide, by decide⟩
  intro kvs pre hnd hdot hus
  refine ⟨?_, ?_, ?_, ?_⟩ <;>
    simp only [Mongo.flattenObject, Firebase.flattenObject, Dynamo.flattenObject,
      Couch.flattenObject]
  · rw [flattenFields_eq "." kvs pre [] hnd (by simpa using hdot), List.nil_append]
  · rw [flattenFields_eq "_" kvs pre [] hnd (by simpa using hus), List.nil_append]
  · rw [flattenFields_eq "_" kvs pre [] hnd (by simpa using hus), List.nil_append]
  · rw [flattenFields_eq "_" kvs pre [] hnd (by simpa using hus), List.nil_append]

/-- C5 (witness): the refinement applied to the fields of
`{name: "Ada", address: {city: "London"}}` with an empty key prefix. -/
theorem c5_flatten_matches_spec_witness :
    Mongo.flattenObject [("name", .str "Ada"), ("address", .obj [("city", .str "London")])] "" =
      flattenSpec "." [("name", .str "Ada"), ("address", .obj [("city", .str "London")])] "" ∧
    Firebase.flattenObject [("name", .str "Ada"), ("address", .obj [("city", .str "London")])] "" =
      flattenSpec "_" [("name", .str "Ada"), ("address", .obj [("city", .str "London")])] "" ∧
    Dynamo.flattenObject [("name", .str "Ada"), ("address", .obj [("city", .str "London")])] "" =
      flattenSpec "_" [("name", .str "Ada"), ("address", .obj [("city", .str "London")])] "" ∧
    Couch.flattenObject [("name", .str "Ada"), ("address", .obj [("city", .str "London")])] "" =
      flattenSpec "_" [("name", .str "Ada"), ("address", .obj [("city", .str "London")])] "" :=
  c5_flatten_matches_spec.1
    [("name", .str "Ada"), ("address", .obj [("city", .str "London")])] ""
    (by decide) (by decide) (by decide)

theorem isPrefixOf_append_of_isPrefixOf :
    ∀ (l m n : List Char), l.isPrefixOf m = true → l.isPrefixOf (m ++ n) = true
  | [], _, _, _ => by simp [List.isPrefixOf]
  | c :: cs, [], n, h => by simp [List.isPrefixOf] at h
  | c :: cs, d :: ds, n, h => by
    simp only [List.isPrefixOf, List.cons_append, Bool.and_eq_true] at h ⊢
    exact ⟨h.1, isPrefixOf_append_of_isPrefixOf cs ds n h.2⟩

theorem listContainsSub_nil_pat : ∀ (l : List Char), listContainsSub [] l = true
  | [] => rfl
  | c :: cs => by simp [listContainsSub, List.isPrefixOf]

theorem listContainsSub_append_of_left (pat : List Char) :
    ∀ (a b : List Char), listContainsSub pat a = true → listContainsSub pat (a ++ b) = true
  | [], b, h => by
    have : pat = [] := by simpa [listContainsSub, List.isEmpty_iff] using h
    subst this
    exact listContainsSub_nil_pat b
  | c :: cs, b, h => by
    rw [listContainsSub] at h
    simp only [Bool.or_eq_true] at h
    rcases h with hp | hrec
    · rw [List.cons_append, listContainsSub]
      simp only [Bool.or_eq_true]
      exact Or.inl
        (by simpa [List.cons_append] using isPrefixOf_append_of_isPrefixOf pat (c :: cs) b hp)
    · rw [List.cons_append, listContainsSub]
      simp only [Bool.or_eq_true]
      exact Or.inr (listContainsSub_append_of_left pat cs b hrec)

theorem listContainsSub_append_of_right (pat : List Char) :
    ∀ (a b : List Char), listContainsSub pat b = true → listContainsSub pat (a ++ b) = true
  | [], b, h => h
  | c :: cs, b, h => by
    rw [List.cons_append, listContainsSub]
    simp only [Bool.or_eq_true]
    exact Or.inr (listContainsSub_append_of_right pat cs b h)

theorem strContains_append_of_left {a pat : String} (b : String)
    (h : strContains a pat = true) : strContains (a ++ b) pat = true := by
  rw [strContains, String.data_append]
  exact listContainsSub_append_of_left pat.data a.data b.data h

theorem strContains_append_of_right (a : String) {b pat : String}
    (h : strContains b pat = true) : strContains (a ++ b) pat = true := by
  rw [strContains, String.data_append]
  exact listContainsSub_append_of_right pat.data a.data b.data h

theorem mapExceptIdxAux_obj (f : Nat → List (String × JValue) → String) :
    ∀ (kvss : List (List (String × JValue))) (i : Nat),
      mapExceptIdxAux (fun idx it => do
          let entries ← jsEntriesOpt (some it)
          pure (f idx entries)) i (kvss.map JValue.obj) =
        .ok (concatIdxAux f i kvss)
  | [], i => rfl
  | kvs :: kvss, i => by
    rw [List.map_cons, mapExceptIdxAux, concatIdxAux]
    show (do
      let s ← (do
        let entries ← jsEntriesOpt (some (JValue.obj kvs))
        pure (f i entries) : Except String String)
      let r ← mapExceptIdxAux (fun idx it => do
          let entries ← jsEntriesOpt (some it)
          pure (f idx entries)) (i + 1) (kvss.map JValue.obj)
      pure (s ++ r)) = _
    rw [mapExceptIdxAux_obj f kvss (i + 1)]
    rfl

theorem okContains_bind_pure {pat : String} (e : Except String String) (s : String)
    (f : String → String) (he : e = .ok s) (h : strContains (f s) pat = true) :
    okContains (e >>= fun x => (pure (f x) : Except String String)) pat = true := by
  subst he
  exact h

/-- C3: the DynamoDB-like emitter's nested generator emits the batch-style
`BatchWriteCommand` code path whenever the document count is at most 25 and
the per-item `PutCommand` code path whenever it exceeds 25, for any list of
object documents and any options. -/
theorem c3_batch_threshold (env : JsEnv) (kvss : List (List (String × JValue)))
    (t : String) (opts : GenOptions) :
    (kvss.length ≤ 25 →
      okContains (Dynamo.generateNestedDocuments env (.arr (kvss.map JValue.obj)) t opts)
        "// Function to add items using BatchWriteCommand" = true ∧
      okContains (Dynamo.generateNestedDocuments env (.arr (kvss.map JValue.obj)) t opts)
        "new BatchWriteCommand(" = true) ∧
    (25 < kvss.length →
      okContains (Dynamo.generateNestedDocuments env (.arr (kvss.map JValue.obj)) t opts)
        "// Function to add items using individual PutCommand" = true ∧
      okContains (Dynamo.generateNestedDocuments env (.arr (kvss.map JValue.obj)) t opts)
        "new PutCommand(" = true) := by
  refine ⟨fun h => ⟨?_, ?_⟩, fun h => ⟨?_, ?_⟩⟩ <;>
    rw [Dynamo.generateNestedDocuments] <;>
    simp only [toDataArray, List.length_map, mapExceptIdx]
  · rw [if_pos h]
    refine okContains_bind_pure _ _ _ (mapExceptIdxAux_obj _ kvss 0) ?_
    iterate 11 apply strContains_append_of_left
    apply strContains_append_of_right
    decide
  · rw [if_pos h]
    refine okContains_bind_pure _ _ _ (mapExceptIdxAux_obj _ kvss 0) ?_
    iterate 8 apply strContains_append_of_left
    apply strContains_append_of_right
    decide
  · rw [if_neg (by omega)]
    refine okContains_bind_pure _ _ _ (mapExceptIdxAux_obj _ kvss 0) ?_
    iterate 8 apply strContains_append_of_left
    apply strContains_append_of_right
    decide
  · rw [if_neg (by omega)]
    refine okContains_bind_pure _ _ _ (mapExceptIdxAux_obj _ kvss 0) ?_
    iterate 6 apply strContains_append_of_left
    apply strContains_append_of_right
    cases kvss with
    | nil => simp at h
    | cons kvs rest =>
      rw [concatIdxAux]
      apply strContains_append_of_left
      iterate 7 apply strContains_append_of_left
      apply strContains_append_of_right
      decide

/-- C3 (witness): the threshold theorem applied at exactly 25 and exactly 26
empty documents. -/
theorem c3_batch_threshold_witness :
    (okContains (Dynamo.generateNestedDocuments testEnv
        (.arr ((List.replicate 25 ([] : List (String × JValue))).map JValue.obj)) "Items" {})
        "// Function to add items using BatchWriteCommand" = true ∧
      okContains (Dynamo.generateNestedDocuments testEnv
        (.arr ((List.replicate 25 ([] : List (String × JValue))).map JValue.obj)) "Items" {})
        "new BatchWriteCommand(" = true) ∧
    (okContains (Dynamo.generateNestedDocuments testEnv
        (.arr ((List.replicate 26 ([] : List (String × JValue))).map JValue.obj)) "Items" {})
        "// Function to add items using individual PutCommand" = true ∧
      okContains (Dynamo.generateNestedDocuments testEnv
        (.arr ((List.replicate 26 ([] : List (String × JValue))).map JValue.obj)) "Items" {})
        "new PutCommand(" = true) :=
  ⟨(c3_batch_threshold testEnv (List.replicate 25 []) "Items" {}).1 (by decide),
   (c3_batch_threshold testEnv (List.replicate 26 []) "Items" {}).2 (by decide)⟩

example :
    Mongo.referencedEmittedKeys (.arr [.obj [("x", .num "1")], .null]) "items" =
      .error "TypeError: Cannot convert undefined or null to object" := rfl

example :
    (Mongo.generateReferencedDocuments testEnv (.arr [.obj [("x", .num "1")], .null])
      "items" {}).isOk = false := by decide
